import Mathlib

/- Shallow embedding of the rworld procedural world generator
   (src/include/rworld/world.h and src/src/world.cpp).

   Real-valued quantities of the C++ code are modelled by `ℚ`.  The C math
   library's transcendental functions (std::cos, std::sin, std::asin,
   std::exp, std::pow, std::sqrt, std::log2) and the third-party
   FastNoiseLite generators are not part of this repository's sources, so
   they are modelled abstractly: the math functions as an arbitrary
   `FloatOps` record, and each configured noise generator as an arbitrary
   sampling function `ℚ → ℚ → ℚ → ℚ` collected in a `NoiseBank`. -/

/-- Modelled from the spec: the C math library functions used by
world.cpp.  They are abstract parameters of the embedding; theorems that
need a property of the real functions (positivity of sin on (0,π),
periodicity) take that property as an explicit hypothesis. -/
structure FloatOps where
  cos : ℚ → ℚ
  sin : ℚ → ℚ
  asin : ℚ → ℚ
  exp : ℚ → ℚ
  pow : ℚ → ℚ → ℚ
  sqrt : ℚ → ℚ
  log2 : ℚ → ℚ

/-- Modelled from the spec: the bank of FastNoiseLite generators owned by
`World::Impl` (FastNoiseLite.h is third-party code, absent from src/).
Each field is the sampling function `GetNoise(x, y, z)` of one fully
configured generator. -/
structure NoiseBank where
  terrain_noise : ℚ → ℚ → ℚ → ℚ
  moisture_noise : ℚ → ℚ → ℚ → ℚ
  temperature_variation_noise : ℚ → ℚ → ℚ → ℚ
  wind_noise : ℚ → ℚ → ℚ → ℚ
  river_noise : ℚ → ℚ → ℚ → ℚ
  volcano_noise : ℚ → ℚ → ℚ → ℚ
  coal_noise : ℚ → ℚ → ℚ → ℚ
  iron_noise : ℚ → ℚ → ℚ → ℚ
  oil_noise : ℚ → ℚ → ℚ → ℚ
  cloud_noise : ℚ → ℚ → ℚ → ℚ
  weather_noise : ℚ → ℚ → ℚ → ℚ
  pressure_noise : ℚ → ℚ → ℚ → ℚ

/-- WorldConfig from world.h (lines 163-185). -/
structure WorldConfig where
  seed : ℕ
  world_scale : ℚ
  day_of_year : ℤ
  equator_temperature : ℚ
  pole_temperature : ℚ
  temperature_lapse_rate : ℚ
  sea_level : ℚ
  max_terrain_height : ℚ
  terrain_frequency : ℚ
  terrain_octaves : ℤ
  terrain_lacunarity : ℚ
  terrain_gain : ℚ
  moisture_frequency : ℚ
  moisture_octaves : ℤ
deriving DecidableEq

/-- The default WorldConfig values of world.h. -/
def default_config : WorldConfig :=
  { seed := 12345
    world_scale := 1
    day_of_year := 80
    equator_temperature := 30
    pole_temperature := -40
    temperature_lapse_rate := 6.5
    sea_level := 0
    max_terrain_height := 8848
    terrain_frequency := 0.001
    terrain_octaves := 6
    terrain_lacunarity := 2
    terrain_gain := 0.5
    moisture_frequency := 0.002
    moisture_octaves := 4 }

/-- The state of `World::Impl`: the active configuration and the noise
generator bank built from it. -/
structure World where
  config : WorldConfig
  bank : NoiseBank

/-- `World::World(cfg)` / `Impl::Impl(cfg)`: store the configuration and
run `initialize_noise_generators`, which configures every generator from
the stored configuration alone (world.cpp lines 25-113).  The construction
of the configured generators is the abstract function `mk`. -/
def World.init (mk : WorldConfig → NoiseBank) (cfg : WorldConfig) : World :=
  { config := cfg, bank := mk cfg }

/-- `World::set_config` (world.cpp lines 1749-1752): assign the new
configuration, then rerun `initialize_noise_generators` on it. -/
def set_config (mk : WorldConfig → NoiseBank) (_W : World) (cfg : WorldConfig) : World :=
  { config := cfg, bank := mk cfg }

/-- std::clamp(v, lo, hi). -/
def clampf (v lo hi : ℚ) : ℚ :=
  if v < lo then lo else if hi < v then hi else v

/-- Floor of a rational as an integer. -/
def floorQ (q : ℚ) : ℤ := Int.floor q

/-- Truncation toward zero, the semantics of `static_cast<int>` on a
floating value. -/
def truncQ (q : ℚ) : ℤ := if q < 0 then -Int.floor (-q) else Int.floor q

/-- The literal 3.14159265359f used by geo_to_world and
get_pressure_at_location. -/
def pi_f : ℚ := 3.14159265359

/-- The literal M_PI used by the astronomy code. -/
def m_pi : ℚ := 3.14159265358979323846

/-- `Impl::geo_to_world` (world.cpp lines 116-126): project geographic
coordinates onto a sphere of radius 1000.  No clamping or wrapping is
performed on either coordinate. -/
def geo_to_world (ops : FloatOps) (longitude latitude : ℚ) : ℚ × ℚ × ℚ :=
  let lon_rad := longitude * pi_f / 180
  let lat_rad := latitude * pi_f / 180
  let r : ℚ := 1000
  (r * ops.cos lat_rad * ops.cos lon_rad,
   r * ops.cos lat_rad * ops.sin lon_rad,
   r * ops.sin lat_rad)

/-- The detail-octave loop of `Impl::get_terrain_height` (world.cpp lines
145-149): `k` remaining iterations, `i` the current octave index, `amp`
the current amplitude. -/
def detail_sum (ops : FloatOps) (tn : ℚ → ℚ → ℚ → ℚ) (x y z : ℚ) :
    ℕ → ℕ → ℚ → ℚ
  | 0, _, _ => 0
  | k + 1, i, amp =>
      let freq := 2 * ops.pow 2 (i : ℚ)
      tn (x * freq) (y * freq) (z * freq) * amp
        + detail_sum ops tn x y z k (i + 1) (amp * 0.5)

/-- `Impl::get_terrain_height` (world.cpp lines 128-209). -/
def get_terrain_height (ops : FloatOps) (W : World)
    (longitude latitude detail_level : ℚ) : ℚ :=
  let p := geo_to_world ops longitude latitude
  let x := p.1
  let y := p.2.1
  let z := p.2.2
  let noise_value := W.bank.terrain_noise x y z
  let noise_value :=
    if 1 < detail_level then
      let detail_octaves : ℤ := min 3 (truncQ (ops.log2 detail_level))
      let detail_contribution :=
        detail_sum ops W.bank.terrain_noise x y z detail_octaves.toNat 0 0.3
      let detail_blend := min 1 ((detail_level - 1) / 4)
      noise_value * (1 - detail_blend * 0.3) + detail_contribution * detail_blend
    else noise_value
  let shaped :=
    if noise_value < 0 then
      let s := noise_value * noise_value * (-1)
      s * s * (-1)
    else ops.pow noise_value 0.7
  let base_height :=
    if shaped < 0 then shaped * 4000 else shaped * W.config.max_terrain_height
  if 0 < base_height then
    let volcano_cell := (W.bank.volcano_noise x y z + 1) * 0.5
    if volcano_cell < 0.2 then
      let distance_factor := 1 - volcano_cell / 0.2
      let elevation_preference := clampf ((base_height - 300) / 1500) 0.2 1
      let cone_height :=
        distance_factor * distance_factor * distance_factor * 3000
          * elevation_preference
      let cone_height :=
        if 0.85 < distance_factor then
          let crater_factor := (distance_factor - 0.85) / 0.15
          cone_height * (1 - crater_factor * 0.4)
        else cone_height
      base_height + cone_height
    else base_height
  else base_height

/-- `Impl::is_volcano` (world.cpp lines 211-228). -/
def is_volcano (ops : FloatOps) (W : World) (longitude latitude : ℚ) : Bool :=
  let base_height := get_terrain_height ops W longitude latitude 1
  if base_height ≤ W.config.sea_level then false
  else
    let p := geo_to_world ops longitude latitude
    let volcano_cell := (W.bank.volcano_noise p.1 p.2.1 p.2.2 + 1) * 0.5
    if volcano_cell < 0.2 then true else false

/-- `Impl::get_moisture` (world.cpp lines 853-866). -/
def get_moisture (ops : FloatOps) (W : World) (longitude latitude : ℚ) : ℚ :=
  let p := geo_to_world ops longitude latitude
  let moisture := (W.bank.moisture_noise p.1 p.2.1 p.2.2 + 1) * 0.5
  let lat_factor := 1 - abs latitude / 90
  clampf (moisture * 0.7 + lat_factor * 0.3) 0 1

/-- `Impl::get_base_temperature` (world.cpp lines 868-878).  Note: the
latitude is used as given, without clamping to [-90, 90]. -/
def get_base_temperature (cfg : WorldConfig) (latitude altitude : ℚ) : ℚ :=
  let lat_factor := abs latitude / 90
  let base_temp := cfg.equator_temperature -
    (cfg.equator_temperature - cfg.pole_temperature) * lat_factor
  base_temp + (-(altitude / 1000) * cfg.temperature_lapse_rate)

/-- `Impl::get_temperature` (world.cpp lines 880-889). -/
def get_temperature (ops : FloatOps) (W : World)
    (longitude latitude altitude : ℚ) : ℚ :=
  let base_temp := get_base_temperature W.config latitude altitude
  let p := geo_to_world ops longitude latitude
  base_temp + W.bank.temperature_variation_noise p.1 p.2.1 p.2.2 * 5

/-- `Impl::get_precipitation` (world.cpp lines 935-957). -/
def get_precipitation (ops : FloatOps) (W : World)
    (longitude latitude altitude : ℚ) : ℚ :=
  let moisture := get_moisture ops W longitude latitude
  let temp := get_temperature ops W longitude latitude altitude
  let base_precip := moisture * 2000
  let temp_factor := clampf ((temp + 10) / 40) 0.1 1.5
  let base_precip := base_precip * temp_factor
  let terrain_height := get_terrain_height ops W longitude latitude 1
  let base_precip :=
    if 500 < terrain_height ∧ terrain_height < 3000 then base_precip * 1.3
    else if 4000 < altitude then base_precip * 0.5
    else base_precip
  clampf base_precip 0 4000

/-- `Impl::get_humidity` (world.cpp lines 997-1013). -/
def get_humidity (ops : FloatOps) (W : World)
    (longitude latitude altitude : ℚ) : ℚ :=
  let moisture := get_moisture ops W longitude latitude
  let temp := get_temperature ops W longitude latitude altitude
  let temp_factor := 1 - clampf ((temp - 10) / 40) 0 0.5
  let humidity := moisture * (0.5 + temp_factor)
  let humidity :=
    if 3000 < altitude then
      humidity * clampf (1 - (altitude - 3000) / 5000) 0.2 1
    else humidity
  clampf humidity 0 1

/-- `Impl::get_cloud_density` (world.cpp lines 433-464). -/
def get_cloud_density (ops : FloatOps) (W : World)
    (longitude latitude altitude : ℚ) : ℚ :=
  let p := geo_to_world ops longitude latitude
  let noise := (W.bank.cloud_noise p.1 p.2.1 p.2.2 + 1) * 0.5
  let humidity := get_humidity ops W longitude latitude altitude
  let precip := get_precipitation ops W longitude latitude altitude
  let temp := get_temperature ops W longitude latitude altitude
  let cloud_base := humidity * 0.8 + 0.2 * noise
  let precip_factor := clampf (precip / 2000) 0 1
  let cloud_base := cloud_base * 0.6 + precip_factor * 0.4
  let temp_factor : ℚ :=
    if temp < -10 then 0.5 else if 25 < temp then 1.2 else 1
  clampf (cloud_base * temp_factor) 0 1

/-- Hour wrap-around of `Impl::get_solar_angle` (world.cpp lines 364-365):
the two while loops reduce the local solar time into [0, 24). -/
def norm24 (t : ℚ) : ℚ := t - 24 * (floorQ (t / 24) : ℚ)

/-- `Impl::get_solar_angle` (world.cpp lines 357-389). -/
def get_solar_angle (ops : FloatOps) (cfg : WorldConfig)
    (longitude latitude current_time : ℚ) : ℚ :=
  let local_solar_time := norm24 (current_time + longitude / 15)
  let hour_angle := (local_solar_time - 12) * 15
  let day_angle := ((cfg.day_of_year - 172 : ℤ) : ℚ) * 2 * m_pi / 365
  let solar_declination := 23.44 * ops.cos day_angle
  let lat_rad := latitude * m_pi / 180
  let dec_rad := solar_declination * m_pi / 180
  let ha_rad := hour_angle * m_pi / 180
  let sin_elevation :=
    ops.sin lat_rad * ops.sin dec_rad
      + ops.cos lat_rad * ops.cos dec_rad * ops.cos ha_rad
  ops.asin (clampf sin_elevation (-1) 1) * 180 / m_pi

/-- `Impl::is_daylight` (world.cpp lines 391-393). -/
def is_daylight (ops : FloatOps) (cfg : WorldConfig)
    (longitude latitude current_time : ℚ) : Bool :=
  if 0 < get_solar_angle ops cfg longitude latitude current_time then true
  else false

/-- `Impl::get_insolation` (world.cpp lines 395-431). -/
def get_insolation (ops : FloatOps) (W : World)
    (longitude latitude current_time : ℚ) : ℚ :=
  let solar_angle := get_solar_angle ops W.config longitude latitude current_time
  if solar_angle ≤ 0 then 0
  else
    let solar_angle_rad := solar_angle * m_pi / 180
    let base_insolation := 1361 * ops.sin solar_angle_rad
    let air_mass := clampf (1 / ops.sin solar_angle_rad) 1 10
    let base_insolation := base_insolation * ops.pow 0.7 air_mass
    let terrain_height := get_terrain_height ops W longitude latitude 1
    let altitude := max terrain_height 0
    let cloud_density := get_cloud_density ops W longitude latitude altitude
    clampf (base_insolation * (1 - cloud_density * 0.7)) 0 1400

/-- `Impl::get_temperature_at_time` (world.cpp lines 891-933). -/
def get_temperature_at_time (ops : FloatOps) (W : World)
    (longitude latitude altitude current_time : ℚ) : ℚ :=
  let base_temp := get_temperature ops W longitude latitude altitude
  let insolation := get_insolation ops W longitude latitude current_time
  let solar_heating := insolation / 1000 * 10
  let is_day := is_daylight ops W.config longitude latitude current_time
  let night_cooling : ℚ :=
    if is_day then 0
    else -5 - 10 * (1 - get_cloud_density ops W longitude latitude altitude)
  let cloud_density := get_cloud_density ops W longitude latitude altitude
  let cloud_effect : ℚ := if is_day then -cloud_density * 5 else 0
  let humidity := get_humidity ops W longitude latitude altitude
  let variation_damping := 0.5 + humidity * 0.5
  base_temp + (solar_heating + night_cooling + cloud_effect) * variation_damping

/-- `Impl::get_current_precipitation` (world.cpp lines 959-986). -/
def get_current_precipitation (ops : FloatOps) (W : World)
    (longitude latitude altitude current_time : ℚ) : ℚ :=
  let base_precip := get_precipitation ops W longitude latitude altitude
  let time_scaled := current_time * 0.1
  let p := geo_to_world ops longitude latitude
  let weather_variation :=
    (W.bank.weather_noise p.1 p.2.1 (p.2.2 + time_scaled * 100) + 1) * 0.5
  let rain_probability := clampf (base_precip / 3000) 0 0.8
  let is_raining : ℚ :=
    if weather_variation < rain_probability + 0.3 then 1 else 0
  is_raining * (weather_variation * weather_variation)

/-- `Impl::get_air_pressure` (world.cpp lines 988-995). -/
def get_air_pressure (ops : FloatOps) (altitude : ℚ) : ℚ :=
  1013.25 * ops.exp (-altitude / 8500)

/-- `Impl::get_wind_speed` (world.cpp lines 1015-1055). -/
def get_wind_speed (ops : FloatOps) (W : World)
    (longitude latitude altitude : ℚ) : ℚ :=
  let p := geo_to_world ops longitude latitude
  let wind_base := (W.bank.wind_noise p.1 p.2.1 p.2.2 + 1) * 0.5
  let abs_lat := abs latitude
  let lat_wind : ℚ :=
    if abs_lat < 30 then 5 + (30 - abs_lat) / 30 * 3
    else if abs_lat < 60 then 7 + (abs_lat - 30) / 30 * 5
    else 6 + (90 - abs_lat) / 30 * 2
  let terrain_height := get_terrain_height ops W longitude latitude 1
  let terrain_factor : ℚ :=
    if altitude ≤ max terrain_height 0 + 10 then
      if 1000 < terrain_height then 0.6
      else if 500 < terrain_height then 0.8
      else 1
    else 1 + (altitude - terrain_height) / 5000
  clampf ((lat_wind * 0.6 + wind_base * 8 * 0.4) * terrain_factor) 0 30

/-- `Impl::get_current_wind_speed` (world.cpp lines 1057-1075). -/
def get_current_wind_speed (ops : FloatOps) (W : World)
    (longitude latitude altitude current_time : ℚ) : ℚ :=
  let base_wind := get_wind_speed ops W longitude latitude altitude
  let time_scaled := current_time * 0.2
  let p := geo_to_world ops longitude latitude
  let weather_var :=
    (W.bank.weather_noise p.1 p.2.1 (p.2.2 + time_scaled * 50) + 1) * 0.5
  clampf (base_wind * (0.5 + weather_var)) 0 40

/-- Degree wrap-around of `Impl::get_wind_direction` (world.cpp lines
1102-1103): the two while loops reduce a bearing into [0, 360). -/
def norm360 (d : ℚ) : ℚ := d - 360 * (floorQ (d / 360) : ℚ)

/-- `Impl::get_wind_direction` (world.cpp lines 1077-1106). -/
def get_wind_direction (ops : FloatOps) (W : World)
    (longitude latitude _altitude : ℚ) : ℚ :=
  let p := geo_to_world ops longitude latitude
  let abs_lat := abs latitude
  let base_direction : ℚ :=
    if abs_lat < 30 then (if 0 ≤ latitude then 240 else 120)
    else if abs_lat < 60 then (if 0 ≤ latitude then 60 else 300)
    else (if 0 ≤ latitude then 120 else 240)
  let noise_offset := W.bank.wind_noise (p.1 * 2) (p.2.1 * 2) (p.2.2 * 2) * 60
  norm360 (base_direction + noise_offset)

/-- `Impl::get_current_wind_direction` (world.cpp lines 1108-1130). -/
def get_current_wind_direction (ops : FloatOps) (W : World)
    (longitude latitude altitude current_time : ℚ) : ℚ :=
  let base_dir := get_wind_direction ops W longitude latitude altitude
  let time_scaled := current_time * 0.15
  let p := geo_to_world ops longitude latitude
  let weather_var :=
    W.bank.weather_noise (p.1 * 1.5) (p.2.1 * 1.5) (p.2.2 * 1.5 + time_scaled * 30)
  norm360 (base_dir + weather_var * 45)

/-- `Impl::get_flow_accumulation` (world.cpp lines 1133-1189). -/
def get_flow_accumulation (ops : FloatOps) (W : World)
    (longitude latitude : ℚ) : ℚ :=
  let terrain_height := get_terrain_height ops W longitude latitude 1
  if terrain_height ≤ W.config.sea_level then 0
  else
    let sample_dist : ℚ := 0.1
    let h_north := get_terrain_height ops W longitude (latitude + sample_dist) 1
    let h_south := get_terrain_height ops W longitude (latitude - sample_dist) 1
    let h_east := get_terrain_height ops W (longitude + sample_dist) latitude 1
    let h_west := get_terrain_height ops W (longitude - sample_dist) latitude 1
    let avg_neighbor := (h_north + h_south + h_east + h_west) / 4
    let height_diff := avg_neighbor - terrain_height
    let valley_factor := clampf (height_diff / 50) 0 1
    let grad_ns := abs (h_north - h_south) / (2 * sample_dist)
    let grad_ew := abs (h_east - h_west) / (2 * sample_dist)
    let gradient := ops.sqrt (grad_ns * grad_ns + grad_ew * grad_ew)
    let gradient_factor := clampf (gradient / 500) 0.2 1.5
    let altitude := max terrain_height 0
    let precip := get_precipitation ops W longitude latitude altitude
    let precip_factor := clampf (precip / 1500) 0.1 1.5
    let p := geo_to_world ops longitude latitude
    let noise := (W.bank.river_noise p.1 p.2.1 p.2.2 + 1) * 0.5
    let noise_factor := noise * noise
    let flow :=
      (valley_factor * 0.4 + precip_factor * 0.25 + noise_factor * 0.35)
        * gradient_factor
    let flow :=
      if terrain_height < 100 then flow * 2
      else if terrain_height < 500 then flow * 1.3
      else if 3000 < terrain_height then flow * 0.4
      else flow
    clampf flow 0 1

/-- `Impl::is_river` (world.cpp lines 1191-1202). -/
def is_river (ops : FloatOps) (W : World) (longitude latitude : ℚ) : Bool :=
  let terrain_height := get_terrain_height ops W longitude latitude 1
  if terrain_height ≤ W.config.sea_level then false
  else if 0.4 < get_flow_accumulation ops W longitude latitude then true
  else false

/-- `Impl::get_river_width` (world.cpp lines 1204-1238). -/
def get_river_width (ops : FloatOps) (W : World)
    (longitude latitude : ℚ) : ℚ :=
  let terrain_height := get_terrain_height ops W longitude latitude 1
  if terrain_height ≤ W.config.sea_level then 0
  else
    let flow := get_flow_accumulation ops W longitude latitude
    if flow < 0.4 then 0
    else
      let base_width := (flow - 0.4) / 0.6
      let altitude := max terrain_height 0
      let elevation_factor : ℚ :=
        if terrain_height < 500 then 2 + (500 - terrain_height) / 500 * 3 else 1
      let precip := get_precipitation ops W longitude latitude altitude
      let precip_factor := 0.5 + clampf (precip / 2000) 0 1 * 0.5
      clampf (5 + base_width * base_width * 40 * elevation_factor * precip_factor)
        0 500

/-- BiomeType from world.h (lines 13-43). -/
inductive BiomeType where
  | TUNDRA
  | TAIGA
  | GRASSLAND
  | TEMPERATE_DECIDUOUS_FOREST
  | TEMPERATE_RAINFOREST
  | SAVANNA
  | TROPICAL_SEASONAL_FOREST
  | TROPICAL_RAINFOREST
  | COLD_DESERT
  | DESERT
  | OCEAN
  | DEEP_OCEAN
  | BEACH
  | SNOW
  | ICE
  | MOUNTAIN_TUNDRA
  | MOUNTAIN_FOREST
  | MOUNTAIN_PEAK
deriving DecidableEq

/-- PrecipitationType from world.h (lines 48-53). -/
inductive PrecipitationType where
  | NONE
  | RAIN
  | SNOW
  | SLEET
deriving DecidableEq

/-- SoilType from world.h (lines 58-67). -/
inductive SoilType where
  | CLAY
  | SILT
  | SAND
  | LOAM
  | PEAT
  | ROCKY
  | PERMAFROST
  | NONE
deriving DecidableEq

/-- `Impl::classify_biome` (world.cpp lines 1240-1317). -/
def classify_biome (ops : FloatOps) (W : World)
    (longitude latitude altitude : ℚ) : BiomeType :=
  let terrain_height := get_terrain_height ops W longitude latitude 1
  if terrain_height < W.config.sea_level then
    if terrain_height < -1000 then BiomeType.DEEP_OCEAN else BiomeType.OCEAN
  else if terrain_height < 5 then BiomeType.BEACH
  else
    let temp := get_temperature ops W longitude latitude altitude
    let moisture := get_moisture ops W longitude latitude
    if temp < -15 then
      if terrain_height < 100 then BiomeType.ICE else BiomeType.SNOW
    else if 4000 < altitude then BiomeType.MOUNTAIN_PEAK
    else if 2500 < altitude then
      if temp < 0 then BiomeType.MOUNTAIN_TUNDRA else BiomeType.MOUNTAIN_FOREST
    else if temp < 0 then
      if moisture < 0.3 then BiomeType.COLD_DESERT else BiomeType.TUNDRA
    else if temp < 10 then
      if moisture < 0.3 then BiomeType.COLD_DESERT
      else if moisture < 0.6 then BiomeType.GRASSLAND
      else BiomeType.TAIGA
    else if temp < 20 then
      if moisture < 0.3 then BiomeType.GRASSLAND
      else if moisture < 0.6 then BiomeType.TEMPERATE_DECIDUOUS_FOREST
      else BiomeType.TEMPERATE_RAINFOREST
    else
      if moisture < 0.2 then BiomeType.DESERT
      else if moisture < 0.5 then BiomeType.SAVANNA
      else if moisture < 0.7 then BiomeType.TROPICAL_SEASONAL_FOREST
      else BiomeType.TROPICAL_RAINFOREST

/-- `Impl::get_coal_deposit` (world.cpp lines 230-280). -/
def get_coal_deposit (ops : FloatOps) (W : World)
    (longitude latitude : ℚ) : ℚ :=
  let terrain_height := get_terrain_height ops W longitude latitude 1
  if terrain_height ≤ W.config.sea_level ∨ 2000 < terrain_height then 0
  else
    let p := geo_to_world ops longitude latitude
    let coal_noise_value := (W.bank.coal_noise p.1 p.2.1 p.2.2 + 1) * 0.5
    let elevation_factor : ℚ :=
      if 0 ≤ terrain_height ∧ terrain_height ≤ 1500 then
        if terrain_height ≤ 1000 then 0.7 + terrain_height / 2000 * 0.3
        else max 0.35 (0.85 - (terrain_height - 1000) / 1000 * 0.5)
      else 0
    let altitude := max terrain_height 0
    let precip := get_precipitation ops W longitude latitude altitude
    let moisture_factor := clampf (precip / 1500) 0.2 1
    let abs_lat := abs latitude
    let lat_factor : ℚ :=
      if abs_lat < 20 then 0.7 + abs_lat / 20 * 0.3
      else if abs_lat ≤ 60 then 1
      else max 0.4 (1 - (abs_lat - 60) / 30)
    let coal := coal_noise_value * elevation_factor * moisture_factor * lat_factor
    clampf (ops.pow coal 0.7 * 1.3) 0 1

/-- `Impl::get_iron_deposit` (world.cpp lines 282-313). -/
def get_iron_deposit (ops : FloatOps) (W : World)
    (longitude latitude : ℚ) : ℚ :=
  let terrain_height := get_terrain_height ops W longitude latitude 1
  if terrain_height ≤ W.config.sea_level then 0
  else
    let p := geo_to_world ops longitude latitude
    let iron_noise_value := (W.bank.iron_noise p.1 p.2.1 p.2.2 + 1) * 0.5
    let volcano_bonus : ℚ := if is_volcano ops W longitude latitude then 0.25 else 0
    let elevation_factor : ℚ :=
      if terrain_height < 500 then 0.8
      else if terrain_height < 1000 then 0.6
      else 0.3
    let iron := iron_noise_value * iron_noise_value * elevation_factor + volcano_bonus
    clampf (iron * 0.8) 0 1

/-- `Impl::get_oil_deposit` (world.cpp lines 315-355). -/
def get_oil_deposit (ops : FloatOps) (W : World)
    (longitude latitude : ℚ) : ℚ :=
  let terrain_height := get_terrain_height ops W longitude latitude 1
  if terrain_height < -200 ∨ 1500 < terrain_height then 0
  else
    let p := geo_to_world ops longitude latitude
    let oil_noise_value := (W.bank.oil_noise p.1 p.2.1 p.2.2 + 1) * 0.5
    let elevation_factor : ℚ :=
      if 0 ≤ terrain_height ∧ terrain_height ≤ 1200 then
        if terrain_height < 100 then 0.5
        else if terrain_height ≤ 800 then 1
        else max 0.3 (1 - (terrain_height - 800) / 400)
      else if -200 ≤ terrain_height ∧ terrain_height < 0 then 0.4
      else 0
    let oil := ops.pow oil_noise_value 1.3 * elevation_factor
    clampf (oil * 1.2) 0 1

/-- `Impl::get_vegetation_density` (world.cpp lines 466-560). -/
def get_vegetation_density (ops : FloatOps) (W : World)
    (longitude latitude altitude : ℚ) : ℚ :=
  let temp := get_temperature ops W longitude latitude altitude
  let precip := get_precipitation ops W longitude latitude altitude
  let biome := classify_biome ops W longitude latitude altitude
  let base_density : ℚ :=
    match biome with
    | BiomeType.TROPICAL_RAINFOREST => 1
    | BiomeType.TEMPERATE_RAINFOREST => 0.95
    | BiomeType.TROPICAL_SEASONAL_FOREST => 0.85
    | BiomeType.TEMPERATE_DECIDUOUS_FOREST => 0.80
    | BiomeType.TAIGA => 0.70
    | BiomeType.MOUNTAIN_FOREST => 0.65
    | BiomeType.SAVANNA => 0.40
    | BiomeType.GRASSLAND => 0.30
    | BiomeType.TUNDRA => 0.15
    | BiomeType.MOUNTAIN_TUNDRA => 0.15
    | BiomeType.DESERT => 0.05
    | BiomeType.COLD_DESERT => 0.05
    | BiomeType.ICE => 0
    | BiomeType.SNOW => 0
    | BiomeType.MOUNTAIN_PEAK => 0
    | BiomeType.OCEAN => 0
    | BiomeType.DEEP_OCEAN => 0
    | BiomeType.BEACH => 0.10
  let base_density := base_density * clampf (precip / 1500) 0.3 1.2
  let temp_factor : ℚ :=
    if temp < -10 then 0.3
    else if temp < 0 then 0.6
    else if 35 < temp then 0.7
    else 1
  let base_density := base_density * temp_factor
  let base_density :=
    if 3000 < altitude then base_density * 0.3
    else if 2000 < altitude then base_density * 0.6
    else base_density
  let p := geo_to_world ops longitude latitude
  let noise := (W.bank.moisture_noise (p.1 * 2) (p.2.1 * 2) (p.2.2 * 2) + 1) * 0.5
  clampf (base_density * (0.85 + noise * 0.3)) 0 1

/-- `Impl::get_soil_type` (world.cpp lines 562-616). -/
def get_soil_type (ops : FloatOps) (W : World)
    (longitude latitude altitude : ℚ) : SoilType :=
  if altitude < 0 then SoilType.NONE
  else if 5000 < altitude then SoilType.ROCKY
  else
    let temp := get_temperature ops W longitude latitude altitude
    let precip := get_precipitation ops W longitude latitude altitude
    let biome := classify_biome ops W longitude latitude altitude
    if biome = BiomeType.ICE ∨ biome = BiomeType.SNOW ∨
        biome = BiomeType.MOUNTAIN_PEAK ∨ temp < -5 then SoilType.PERMAFROST
    else if 2000 < precip ∧ altitude < 100 then SoilType.PEAT
    else if 3000 < altitude ∨ biome = BiomeType.MOUNTAIN_TUNDRA ∨
        biome = BiomeType.MOUNTAIN_PEAK then SoilType.ROCKY
    else if biome = BiomeType.DESERT ∨ biome = BiomeType.COLD_DESERT then
      SoilType.SAND
    else if (biome = BiomeType.GRASSLAND ∨ biome = BiomeType.SAVANNA) ∧
        500 < precip ∧ precip < 1500 then SoilType.LOAM
    else if 1200 < precip ∧ 5 < temp ∧ temp < 25 then SoilType.CLAY
    else if 600 < precip ∧ precip < 1200 then SoilType.SILT
    else SoilType.SAND

/-- `Impl::get_soil_fertility` (world.cpp lines 618-690). -/
def get_soil_fertility (ops : FloatOps) (W : World)
    (longitude latitude altitude : ℚ) : ℚ :=
  let soil := get_soil_type ops W longitude latitude altitude
  let temp := get_temperature ops W longitude latitude altitude
  let precip := get_precipitation ops W longitude latitude altitude
  let vegetation := get_vegetation_density ops W longitude latitude altitude
  let base_fertility : ℚ :=
    match soil with
    | SoilType.LOAM => 0.95
    | SoilType.SILT => 0.75
    | SoilType.CLAY => 0.65
    | SoilType.PEAT => 0.55
    | SoilType.SAND => 0.30
    | SoilType.ROCKY => 0.10
    | SoilType.PERMAFROST => 0.05
    | SoilType.NONE => 0
  let base_fertility := base_fertility + vegetation * 0.15
  let temp_factor : ℚ :=
    if temp < 0 then 0.3
    else if temp < 10 then 0.6
    else if 30 < temp then 0.8
    else 1
  let base_fertility := base_fertility * temp_factor
  let precip_factor : ℚ :=
    if precip < 300 then 0.4
    else if 2500 < precip then 0.7
    else if 500 < precip ∧ precip < 1200 then 1.1
    else 1
  let base_fertility := base_fertility * precip_factor
  let base_fertility :=
    if 1500 < altitude then base_fertility * 0.7
    else if 500 < altitude then base_fertility * 0.85
    else if altitude < 50 ∧ 0 < altitude then base_fertility * 1.1
    else base_fertility
  clampf base_fertility 0 1

/-- `Impl::get_soil_ph` (world.cpp lines 692-746). -/
def get_soil_ph (ops : FloatOps) (W : World)
    (longitude latitude altitude : ℚ) : ℚ :=
  let soil := get_soil_type ops W longitude latitude altitude
  let precip := get_precipitation ops W longitude latitude altitude
  let biome := classify_biome ops W longitude latitude altitude
  let base_ph : ℚ :=
    match soil with
    | SoilType.PEAT => 4.5
    | SoilType.SAND => 6.5
    | SoilType.CLAY => 7.2
    | SoilType.SILT => 6.8
    | SoilType.LOAM => 6.5
    | SoilType.ROCKY => 7.5
    | SoilType.PERMAFROST => 6
    | SoilType.NONE => 7
  let base_ph :=
    if 1500 < precip then base_ph - 0.8
    else if 1000 < precip then base_ph - 0.4
    else base_ph
  let base_ph :=
    if biome = BiomeType.DESERT ∨ biome = BiomeType.COLD_DESERT then base_ph + 0.5
    else base_ph
  let base_ph :=
    if biome = BiomeType.TAIGA ∨ biome = BiomeType.TEMPERATE_DECIDUOUS_FOREST ∨
        biome = BiomeType.TROPICAL_RAINFOREST then base_ph - 0.3
    else base_ph
  clampf base_ph 4 9

/-- `Impl::get_organic_matter` (world.cpp lines 748-801). -/
def get_organic_matter (ops : FloatOps) (W : World)
    (longitude latitude altitude : ℚ) : ℚ :=
  let soil := get_soil_type ops W longitude latitude altitude
  let vegetation := get_vegetation_density ops W longitude latitude altitude
  let temp := get_temperature ops W longitude latitude altitude
  let precip := get_precipitation ops W longitude latitude altitude
  let base_organic : ℚ :=
    match soil with
    | SoilType.PEAT => 0.95
    | SoilType.LOAM => 0.40
    | SoilType.SILT => 0.30
    | SoilType.CLAY => 0.25
    | SoilType.SAND => 0.10
    | SoilType.ROCKY => 0.05
    | SoilType.PERMAFROST => 0.05
    | SoilType.NONE => 0
  let base_organic := base_organic + vegetation * 0.4
  let base_organic :=
    if temp < 0 then base_organic * 1.5
    else if temp < 10 then base_organic * 1.2
    else if 25 < temp then base_organic * 0.7
    else base_organic
  let base_organic :=
    if 1500 < precip then base_organic * 1.2
    else if precip < 500 then base_organic * 0.7
    else base_organic
  clampf base_organic 0 1

/-- `Impl::get_pressure_at_location` (world.cpp lines 803-825). -/
def get_pressure_at_location (ops : FloatOps) (W : World)
    (longitude latitude altitude current_time : ℚ) : ℚ :=
  let altitude_pressure := get_air_pressure ops altitude
  let p := geo_to_world ops longitude latitude
  let time_scaled := current_time * 0.1
  let pressure_variation :=
    W.bank.pressure_noise p.1 p.2.1 (p.2.2 + time_scaled * 200)
  let pressure_delta := pressure_variation * 25
  let lat_factor := ops.cos (latitude * pi_f / 180 * 2)
  altitude_pressure + (pressure_delta + lat_factor * 10)

/-- `Impl::get_pressure_gradient` (world.cpp lines 827-843). -/
def get_pressure_gradient (ops : FloatOps) (W : World)
    (longitude latitude current_time : ℚ) : ℚ :=
  let north_pressure :=
    get_pressure_at_location ops W longitude (latitude + 1) 1000 current_time
  let south_pressure :=
    get_pressure_at_location ops W longitude (latitude - 1) 1000 current_time
  let east_pressure :=
    get_pressure_at_location ops W (longitude + 1) latitude 1000 current_time
  let west_pressure :=
    get_pressure_at_location ops W (longitude - 1) latitude 1000 current_time
  let dx := (east_pressure - west_pressure) / 2
  let dy := (north_pressure - south_pressure) / 2
  ops.sqrt (dx * dx + dy * dy)

/-- `Impl::is_storm_front` (world.cpp lines 845-851). -/
def is_storm_front (ops : FloatOps) (W : World)
    (longitude latitude current_time : ℚ) : Bool :=
  if 5 < get_pressure_gradient ops W longitude latitude current_time then true
  else false

/-- `World::get_precipitation_type` (world.cpp lines 1355-1369). -/
def get_precipitation_type (ops : FloatOps) (W : World)
    (longitude latitude altitude : ℚ) : PrecipitationType :=
  let temp := get_temperature ops W longitude latitude altitude
  let precip := get_precipitation ops W longitude latitude altitude
  if precip < 100 then PrecipitationType.NONE
  else if temp < -2 then PrecipitationType.SNOW
  else if temp < 2 then PrecipitationType.SLEET
  else PrecipitationType.RAIN

/-- DataType from world.h (lines 72-104). -/
inductive DataType where
  | TERRAIN_HEIGHT
  | TEMPERATURE
  | TEMPERATURE_AT_TIME
  | BIOME
  | PRECIPITATION
  | CURRENT_PRECIPITATION
  | PRECIPITATION_TYPE
  | AIR_PRESSURE
  | HUMIDITY
  | WIND_SPEED
  | CURRENT_WIND_SPEED
  | WIND_DIRECTION
  | CURRENT_WIND_DIRECTION
  | IS_RIVER
  | RIVER_WIDTH
  | FLOW_ACCUMULATION
  | IS_VOLCANO
  | COAL_DEPOSIT
  | IRON_DEPOSIT
  | OIL_DEPOSIT
  | INSOLATION
  | IS_DAYLIGHT
  | SOLAR_ANGLE
  | VEGETATION_DENSITY
  | SOIL_TYPE
  | SOIL_FERTILITY
  | SOIL_PH
  | ORGANIC_MATTER
  | PRESSURE_AT_LOCATION
  | PRESSURE_GRADIENT
  | IS_STORM_FRONT
deriving DecidableEq

/-- Location from world.h (lines 109-120). -/
structure Location where
  longitude : ℚ
  latitude : ℚ
  altitude : ℚ
  current_time : ℚ
  detail_level : ℚ
deriving DecidableEq

/-- BatchResult from world.h (lines 126-158): one output sequence per
channel, plus the count of queried locations. -/
structure BatchResult where
  terrain_height : List ℚ
  temperature : List ℚ
  precipitation : List ℚ
  air_pressure : List ℚ
  humidity : List ℚ
  wind_speed : List ℚ
  wind_direction : List ℚ
  river_width : List ℚ
  flow_accumulation : List ℚ
  coal_deposit : List ℚ
  iron_deposit : List ℚ
  oil_deposit : List ℚ
  insolation : List ℚ
  solar_angle : List ℚ
  vegetation_density : List ℚ
  soil_fertility : List ℚ
  soil_ph : List ℚ
  organic_matter : List ℚ
  pressure_at_location : List ℚ
  pressure_gradient : List ℚ
  biome : List BiomeType
  precipitation_type : List PrecipitationType
  soil_type : List SoilType
  is_river : List Bool
  is_volcano : List Bool
  is_daylight : List Bool
  is_storm_front : List Bool
  count : ℕ
deriving DecidableEq

/-- A default-constructed BatchResult: all sequences empty, count 0. -/
def BatchResult.empty : BatchResult :=
  { terrain_height := []
    temperature := []
    precipitation := []
    air_pressure := []
    humidity := []
    wind_speed := []
    wind_direction := []
    river_width := []
    flow_accumulation := []
    coal_deposit := []
    iron_deposit := []
    oil_deposit := []
    insolation := []
    solar_angle := []
    vegetation_density := []
    soil_fertility := []
    soil_ph := []
    organic_matter := []
    pressure_at_location := []
    pressure_gradient := []
    biome := []
    precipitation_type := []
    soil_type := []
    is_river := []
    is_volcano := []
    is_daylight := []
    is_storm_front := []
    count := 0 }

/-- The per-location mutable state of the batch loop (world.cpp lines
1569-1572): cached terrain height, working altitude, and the
computed flag. -/
structure LocCache where
  terrain_height : ℚ
  altitude : ℚ
  terrain_computed : Bool
deriving DecidableEq

/-- Initial per-location state (world.cpp lines 1570-1572). -/
def init_cache (loc : Location) : LocCache :=
  { terrain_height := 0, altitude := loc.altitude, terrain_computed := false }

/-- The `ensure_terrain` lambda of `World::batch_query` (world.cpp lines
1575-1583): compute terrain height once, and if the stored altitude is 0
replace the working altitude by max(terrain_height, 0). -/
def ensure_terrain (ops : FloatOps) (W : World) (loc : Location)
    (c : LocCache) : LocCache :=
  if c.terrain_computed then c
  else
    let th := get_terrain_height ops W loc.longitude loc.latitude loc.detail_level
    { terrain_height := th
      altitude := if loc.altitude = 0 then max th 0 else loc.altitude
      terrain_computed := true }

/-- One iteration of the inner type loop of `World::batch_query`
(world.cpp lines 1586-1742): dispatch on the requested DataType, append
the value to its output sequence. -/
def process_type (ops : FloatOps) (W : World) (loc : Location)
    (s : LocCache × BatchResult) (τ : DataType) : LocCache × BatchResult :=
  let c := s.1
  let r := s.2
  match τ with
  | DataType.TERRAIN_HEIGHT =>
      let c := ensure_terrain ops W loc c
      (c, { r with terrain_height := r.terrain_height ++ [c.terrain_height] })
  | DataType.TEMPERATURE =>
      let c := ensure_terrain ops W loc c
      (c, { r with temperature := r.temperature ++
              [get_temperature ops W loc.longitude loc.latitude c.altitude] })
  | DataType.TEMPERATURE_AT_TIME =>
      let c := ensure_terrain ops W loc c
      (c, { r with temperature := r.temperature ++
              [get_temperature_at_time ops W loc.longitude loc.latitude
                c.altitude loc.current_time] })
  | DataType.BIOME =>
      let c := ensure_terrain ops W loc c
      (c, { r with biome := r.biome ++
              [classify_biome ops W loc.longitude loc.latitude c.altitude] })
  | DataType.PRECIPITATION =>
      let c := ensure_terrain ops W loc c
      (c, { r with precipitation := r.precipitation ++
              [get_precipitation ops W loc.longitude loc.latitude c.altitude] })
  | DataType.CURRENT_PRECIPITATION =>
      let c := ensure_terrain ops W loc c
      (c, { r with precipitation := r.precipitation ++
              [get_current_precipitation ops W loc.longitude loc.latitude
                c.altitude loc.current_time] })
  | DataType.PRECIPITATION_TYPE =>
      let c := ensure_terrain ops W loc c
      let temp := get_temperature ops W loc.longitude loc.latitude c.altitude
      let precip := get_precipitation ops W loc.longitude loc.latitude c.altitude
      let ptype :=
        if 100 ≤ precip then
          if temp < -2 then PrecipitationType.SNOW
          else if temp < 2 then PrecipitationType.SLEET
          else PrecipitationType.RAIN
        else PrecipitationType.NONE
      (c, { r with precipitation_type := r.precipitation_type ++ [ptype] })
  | DataType.AIR_PRESSURE =>
      (c, { r with air_pressure := r.air_pressure ++
              [get_air_pressure ops c.altitude] })
  | DataType.HUMIDITY =>
      let c := ensure_terrain ops W loc c
      (c, { r with humidity := r.humidity ++
              [get_humidity ops W loc.longitude loc.latitude c.altitude] })
  | DataType.WIND_SPEED =>
      let c := ensure_terrain ops W loc c
      (c, { r with wind_speed := r.wind_speed ++
              [get_wind_speed ops W loc.longitude loc.latitude c.altitude] })
  | DataType.CURRENT_WIND_SPEED =>
      let c := ensure_terrain ops W loc c
      (c, { r with wind_speed := r.wind_speed ++
              [get_current_wind_speed ops W loc.longitude loc.latitude
                c.altitude loc.current_time] })
  | DataType.WIND_DIRECTION =>
      let c := ensure_terrain ops W loc c
      (c, { r with wind_direction := r.wind_direction ++
              [get_wind_direction ops W loc.longitude loc.latitude c.altitude] })
  | DataType.CURRENT_WIND_DIRECTION =>
      let c := ensure_terrain ops W loc c
      (c, { r with wind_direction := r.wind_direction ++
              [get_current_wind_direction ops W loc.longitude loc.latitude
                c.altitude loc.current_time] })
  | DataType.IS_RIVER =>
      (c, { r with is_river := r.is_river ++
              [is_river ops W loc.longitude loc.latitude] })
  | DataType.RIVER_WIDTH =>
      (c, { r with river_width := r.river_width ++
              [get_river_width ops W loc.longitude loc.latitude] })
  | DataType.FLOW_ACCUMULATION =>
      (c, { r with flow_accumulation := r.flow_accumulation ++
              [get_flow_accumulation ops W loc.longitude loc.latitude] })
  | DataType.IS_VOLCANO =>
      (c, { r with is_volcano := r.is_volcano ++
              [is_volcano ops W loc.longitude loc.latitude] })
  | DataType.COAL_DEPOSIT =>
      (c, { r with coal_deposit := r.coal_deposit ++
              [get_coal_deposit ops W loc.longitude loc.latitude] })
  | DataType.IRON_DEPOSIT =>
      (c, { r with iron_deposit := r.iron_deposit ++
              [get_iron_deposit ops W loc.longitude loc.latitude] })
  | DataType.OIL_DEPOSIT =>
      (c, { r with oil_deposit := r.oil_deposit ++
              [get_oil_deposit ops W loc.longitude loc.latitude] })
  | DataType.INSOLATION =>
      (c, { r with insolation := r.insolation ++
              [get_insolation ops W loc.longitude loc.latitude loc.current_time] })
  | DataType.IS_DAYLIGHT =>
      (c, { r with is_daylight := r.is_daylight ++
              [is_daylight ops W.config loc.longitude loc.latitude
                loc.current_time] })
  | DataType.SOLAR_ANGLE =>
      (c, { r with solar_angle := r.solar_angle ++
              [get_solar_angle ops W.config loc.longitude loc.latitude
                loc.current_time] })
  | DataType.VEGETATION_DENSITY =>
      let c := ensure_terrain ops W loc c
      (c, { r with vegetation_density := r.vegetation_density ++
              [get_vegetation_density ops W loc.longitude loc.latitude
                c.altitude] })
  | DataType.SOIL_TYPE =>
      let c := ensure_terrain ops W loc c
      (c, { r with soil_type := r.soil_type ++
              [get_soil_type ops W loc.longitude loc.latitude c.altitude] })
  | DataType.SOIL_FERTILITY =>
      let c := ensure_terrain ops W loc c
      (c, { r with soil_fertility := r.soil_fertility ++
              [get_soil_fertility ops W loc.longitude loc.latitude c.altitude] })
  | DataType.SOIL_PH =>
      let c := ensure_terrain ops W loc c
      (c, { r with soil_ph := r.soil_ph ++
              [get_soil_ph ops W loc.longitude loc.latitude c.altitude] })
  | DataType.ORGANIC_MATTER =>
      let c := ensure_terrain ops W loc c
      (c, { r with organic_matter := r.organic_matter ++
              [get_organic_matter ops W loc.longitude loc.latitude c.altitude] })
  | DataType.PRESSURE_AT_LOCATION =>
      let c := ensure_terrain ops W loc c
      (c, { r with pressure_at_location := r.pressure_at_location ++
              [get_pressure_at_location ops W loc.longitude loc.latitude
                c.altitude loc.current_time] })
  | DataType.PRESSURE_GRADIENT =>
      (c, { r with pressure_gradient := r.pressure_gradient ++
              [get_pressure_gradient ops W loc.longitude loc.latitude
                loc.current_time] })
  | DataType.IS_STORM_FRONT =>
      (c, { r with is_storm_front := r.is_storm_front ++
              [is_storm_front ops W loc.longitude loc.latitude
                loc.current_time] })

/-- `World::batch_query` (world.cpp lines 1469-1747).  `count` is set to
the number of locations before the emptiness check; the `reserve` loop has
no observable effect and is omitted. -/
def batch_query (ops : FloatOps) (W : World) (locations : List Location)
    (data_types : List DataType) : BatchResult :=
  let r0 := { BatchResult.empty with count := locations.length }
  if locations.isEmpty || data_types.isEmpty then r0
  else
    locations.foldl
      (fun r loc => (data_types.foldl (process_type ops W loc) (init_cache loc, r)).2)
      r0

/-- A single batch-query output value, of any of the channel element
types. -/
inductive Val where
  | q (x : ℚ)
  | b (x : Bool)
  | biome (x : BiomeType)
  | ptype (x : PrecipitationType)
  | stype (x : SoilType)
deriving DecidableEq

/-- The output channels of a BatchResult, one per sequence field. -/
inductive Channel where
  | terrain_height
  | temperature
  | precipitation
  | air_pressure
  | humidity
  | wind_speed
  | wind_direction
  | river_width
  | flow_accumulation
  | coal_deposit
  | iron_deposit
  | oil_deposit
  | insolation
  | solar_angle
  | vegetation_density
  | soil_fertility
  | soil_ph
  | organic_matter
  | pressure_at_location
  | pressure_gradient
  | biome
  | precipitation_type
  | soil_type
  | is_river
  | is_volcano
  | is_daylight
  | is_storm_front
deriving DecidableEq

/-- The output channel each DataType writes to, read off the push_back
targets of `World::batch_query` (world.cpp lines 1586-1742).  TEMPERATURE
and TEMPERATURE_AT_TIME share the temperature channel, PRECIPITATION and
CURRENT_PRECIPITATION the precipitation channel, the wind pairs likewise;
AIR_PRESSURE writes air_pressure while PRESSURE_AT_LOCATION writes the
separate pressure_at_location sequence. -/
def channel_of : DataType → Channel
  | DataType.TERRAIN_HEIGHT => Channel.terrain_height
  | DataType.TEMPERATURE => Channel.temperature
  | DataType.TEMPERATURE_AT_TIME => Channel.temperature
  | DataType.BIOME => Channel.biome
  | DataType.PRECIPITATION => Channel.precipitation
  | DataType.CURRENT_PRECIPITATION => Channel.precipitation
  | DataType.PRECIPITATION_TYPE => Channel.precipitation_type
  | DataType.AIR_PRESSURE => Channel.air_pressure
  | DataType.HUMIDITY => Channel.humidity
  | DataType.WIND_SPEED => Channel.wind_speed
  | DataType.CURRENT_WIND_SPEED => Channel.wind_speed
  | DataType.WIND_DIRECTION => Channel.wind_direction
  | DataType.CURRENT_WIND_DIRECTION => Channel.wind_direction
  | DataType.IS_RIVER => Channel.is_river
  | DataType.RIVER_WIDTH => Channel.river_width
  | DataType.FLOW_ACCUMULATION => Channel.flow_accumulation
  | DataType.IS_VOLCANO => Channel.is_volcano
  | DataType.COAL_DEPOSIT => Channel.coal_deposit
  | DataType.IRON_DEPOSIT => Channel.iron_deposit
  | DataType.OIL_DEPOSIT => Channel.oil_deposit
  | DataType.INSOLATION => Channel.insolation
  | DataType.IS_DAYLIGHT => Channel.is_daylight
  | DataType.SOLAR_ANGLE => Channel.solar_angle
  | DataType.VEGETATION_DENSITY => Channel.vegetation_density
  | DataType.SOIL_TYPE => Channel.soil_type
  | DataType.SOIL_FERTILITY => Channel.soil_fertility
  | DataType.SOIL_PH => Channel.soil_ph
  | DataType.ORGANIC_MATTER => Channel.organic_matter
  | DataType.PRESSURE_AT_LOCATION => Channel.pressure_at_location
  | DataType.PRESSURE_GRADIENT => Channel.pressure_gradient
  | DataType.IS_STORM_FRONT => Channel.is_storm_front

/-- Project one channel of a BatchResult as a list of tagged values. -/
def get_channel (r : BatchResult) : Channel → List Val
  | Channel.terrain_height => r.terrain_height.map Val.q
  | Channel.temperature => r.temperature.map Val.q
  | Channel.precipitation => r.precipitation.map Val.q
  | Channel.air_pressure => r.air_pressure.map Val.q
  | Channel.humidity => r.humidity.map Val.q
  | Channel.wind_speed => r.wind_speed.map Val.q
  | Channel.wind_direction => r.wind_direction.map Val.q
  | Channel.river_width => r.river_width.map Val.q
  | Channel.flow_accumulation => r.flow_accumulation.map Val.q
  | Channel.coal_deposit => r.coal_deposit.map Val.q
  | Channel.iron_deposit => r.iron_deposit.map Val.q
  | Channel.oil_deposit => r.oil_deposit.map Val.q
  | Channel.insolation => r.insolation.map Val.q
  | Channel.solar_angle => r.solar_angle.map Val.q
  | Channel.vegetation_density => r.vegetation_density.map Val.q
  | Channel.soil_fertility => r.soil_fertility.map Val.q
  | Channel.soil_ph => r.soil_ph.map Val.q
  | Channel.organic_matter => r.organic_matter.map Val.q
  | Channel.pressure_at_location => r.pressure_at_location.map Val.q
  | Channel.pressure_gradient => r.pressure_gradient.map Val.q
  | Channel.biome => r.biome.map Val.biome
  | Channel.precipitation_type => r.precipitation_type.map Val.ptype
  | Channel.soil_type => r.soil_type.map Val.stype
  | Channel.is_river => r.is_river.map Val.b
  | Channel.is_volcano => r.is_volcano.map Val.b
  | Channel.is_daylight => r.is_daylight.map Val.b
  | Channel.is_storm_front => r.is_storm_front.map Val.b

/-- The result of the corresponding individual `World::` query method
called with the location's stored longitude, latitude, altitude,
current_time and detail_level (world.cpp lines 1331-1467). -/
def individual (ops : FloatOps) (W : World) (τ : DataType) (loc : Location) :
    Val :=
  match τ with
  | DataType.TERRAIN_HEIGHT =>
      Val.q (get_terrain_height ops W loc.longitude loc.latitude loc.detail_level)
  | DataType.TEMPERATURE =>
      Val.q (get_temperature ops W loc.longitude loc.latitude loc.altitude)
  | DataType.TEMPERATURE_AT_TIME =>
      Val.q (get_temperature_at_time ops W loc.longitude loc.latitude
        loc.altitude loc.current_time)
  | DataType.BIOME =>
      Val.biome (classify_biome ops W loc.longitude loc.latitude loc.altitude)
  | DataType.PRECIPITATION =>
      Val.q (get_precipitation ops W loc.longitude loc.latitude loc.altitude)
  | DataType.CURRENT_PRECIPITATION =>
      Val.q (get_current_precipitation ops W loc.longitude loc.latitude
        loc.altitude loc.current_time)
  | DataType.PRECIPITATION_TYPE =>
      Val.ptype (get_precipitation_type ops W loc.longitude loc.latitude
        loc.altitude)
  | DataType.AIR_PRESSURE =>
      Val.q (get_air_pressure ops loc.altitude)
  | DataType.HUMIDITY =>
      Val.q (get_humidity ops W loc.longitude loc.latitude loc.altitude)
  | DataType.WIND_SPEED =>
      Val.q (get_wind_speed ops W loc.longitude loc.latitude loc.altitude)
  | DataType.CURRENT_WIND_SPEED =>
      Val.q (get_current_wind_speed ops W loc.longitude loc.latitude
        loc.altitude loc.current_time)
  | DataType.WIND_DIRECTION =>
      Val.q (get_wind_direction ops W loc.longitude loc.latitude loc.altitude)
  | DataType.CURRENT_WIND_DIRECTION =>
      Val.q (get_current_wind_direction ops W loc.longitude loc.latitude
        loc.altitude loc.current_time)
  | DataType.IS_RIVER =>
      Val.b (is_river ops W loc.longitude loc.latitude)
  | DataType.RIVER_WIDTH =>
      Val.q (get_river_width ops W loc.longitude loc.latitude)
  | DataType.FLOW_ACCUMULATION =>
      Val.q (get_flow_accumulation ops W loc.longitude loc.latitude)
  | DataType.IS_VOLCANO =>
      Val.b (is_volcano ops W loc.longitude loc.latitude)
  | DataType.COAL_DEPOSIT =>
      Val.q (get_coal_deposit ops W loc.longitude loc.latitude)
  | DataType.IRON_DEPOSIT =>
      Val.q (get_iron_deposit ops W loc.longitude loc.latitude)
  | DataType.OIL_DEPOSIT =>
      Val.q (get_oil_deposit ops W loc.longitude loc.latitude)
  | DataType.INSOLATION =>
      Val.q (get_insolation ops W loc.longitude loc.latitude loc.current_time)
  | DataType.IS_DAYLIGHT =>
      Val.b (is_daylight ops W.config loc.longitude loc.latitude
        loc.current_time)
  | DataType.SOLAR_ANGLE =>
      Val.q (get_solar_angle ops W.config loc.longitude loc.latitude
        loc.current_time)
  | DataType.VEGETATION_DENSITY =>
      Val.q (get_vegetation_density ops W loc.longitude loc.latitude
        loc.altitude)
  | DataType.SOIL_TYPE =>
      Val.stype (get_soil_type ops W loc.longitude loc.latitude loc.altitude)
  | DataType.SOIL_FERTILITY =>
      Val.q (get_soil_fertility ops W loc.longitude loc.latitude loc.altitude)
  | DataType.SOIL_PH =>
      Val.q (get_soil_ph ops W loc.longitude loc.latitude loc.altitude)
  | DataType.ORGANIC_MATTER =>
      Val.q (get_organic_matter ops W loc.longitude loc.latitude loc.altitude)
  | DataType.PRESSURE_AT_LOCATION =>
      Val.q (get_pressure_at_location ops W loc.longitude loc.latitude
        loc.altitude loc.current_time)
  | DataType.PRESSURE_GRADIENT =>
      Val.q (get_pressure_gradient ops W loc.longitude loc.latitude
        loc.current_time)
  | DataType.IS_STORM_FRONT =>
      Val.b (is_storm_front ops W loc.longitude loc.latitude loc.current_time)

/-- Whether the batch loop's case for this DataType calls `ensure_terrain`
(world.cpp lines 1586-1742). -/
def triggers_terrain : DataType → Bool
  | DataType.TERRAIN_HEIGHT => true
  | DataType.TEMPERATURE => true
  | DataType.TEMPERATURE_AT_TIME => true
  | DataType.BIOME => true
  | DataType.PRECIPITATION => true
  | DataType.CURRENT_PRECIPITATION => true
  | DataType.PRECIPITATION_TYPE => true
  | DataType.AIR_PRESSURE => false
  | DataType.HUMIDITY => true
  | DataType.WIND_SPEED => true
  | DataType.CURRENT_WIND_SPEED => true
  | DataType.WIND_DIRECTION => true
  | DataType.CURRENT_WIND_DIRECTION => true
  | DataType.IS_RIVER => false
  | DataType.RIVER_WIDTH => false
  | DataType.FLOW_ACCUMULATION => false
  | DataType.IS_VOLCANO => false
  | DataType.COAL_DEPOSIT => false
  | DataType.IRON_DEPOSIT => false
  | DataType.OIL_DEPOSIT => false
  | DataType.INSOLATION => false
  | DataType.IS_DAYLIGHT => false
  | DataType.SOLAR_ANGLE => false
  | DataType.VEGETATION_DENSITY => true
  | DataType.SOIL_TYPE => true
  | DataType.SOIL_FERTILITY => true
  | DataType.SOIL_PH => true
  | DataType.ORGANIC_MATTER => true
  | DataType.PRESSURE_AT_LOCATION => true
  | DataType.PRESSURE_GRADIENT => false
  | DataType.IS_STORM_FRONT => false

/-- The value appended by the batch loop's case for `τ`, expressed in
terms of the cache state after that case's optional `ensure_terrain`
call. -/
def batch_value (ops : FloatOps) (W : World) (loc : Location) (c : LocCache) :
    DataType → Val
  | DataType.TERRAIN_HEIGHT => Val.q c.terrain_height
  | DataType.TEMPERATURE =>
      Val.q (get_temperature ops W loc.longitude loc.latitude c.altitude)
  | DataType.TEMPERATURE_AT_TIME =>
      Val.q (get_temperature_at_time ops W loc.longitude loc.latitude
        c.altitude loc.current_time)
  | DataType.BIOME =>
      Val.biome (classify_biome ops W loc.longitude loc.latitude c.altitude)
  | DataType.PRECIPITATION =>
      Val.q (get_precipitation ops W loc.longitude loc.latitude c.altitude)
  | DataType.CURRENT_PRECIPITATION =>
      Val.q (get_current_precipitation ops W loc.longitude loc.latitude
        c.altitude loc.current_time)
  | DataType.PRECIPITATION_TYPE =>
      Val.ptype
        (if 100 ≤ get_precipitation ops W loc.longitude loc.latitude c.altitude
         then
          if get_temperature ops W loc.longitude loc.latitude c.altitude < -2
          then PrecipitationType.SNOW
          else if get_temperature ops W loc.longitude loc.latitude c.altitude < 2
          then PrecipitationType.SLEET
          else PrecipitationType.RAIN
         else PrecipitationType.NONE)
  | DataType.AIR_PRESSURE => Val.q (get_air_pressure ops c.altitude)
  | DataType.HUMIDITY =>
      Val.q (get_humidity ops W loc.longitude loc.latitude c.altitude)
  | DataType.WIND_SPEED =>
      Val.q (get_wind_speed ops W loc.longitude loc.latitude c.altitude)
  | DataType.CURRENT_WIND_SPEED =>
      Val.q (get_current_wind_speed ops W loc.longitude loc.latitude
        c.altitude loc.current_time)
  | DataType.WIND_DIRECTION =>
      Val.q (get_wind_direction ops W loc.longitude loc.latitude c.altitude)
  | DataType.CURRENT_WIND_DIRECTION =>
      Val.q (get_current_wind_direction ops W loc.longitude loc.latitude
        c.altitude loc.current_time)
  | DataType.IS_RIVER => Val.b (is_river ops W loc.longitude loc.latitude)
  | DataType.RIVER_WIDTH =>
      Val.q (get_river_width ops W loc.longitude loc.latitude)
  | DataType.FLOW_ACCUMULATION =>
      Val.q (get_flow_accumulation ops W loc.longitude loc.latitude)
  | DataType.IS_VOLCANO => Val.b (is_volcano ops W loc.longitude loc.latitude)
  | DataType.COAL_DEPOSIT =>
      Val.q (get_coal_deposit ops W loc.longitude loc.latitude)
  | DataType.IRON_DEPOSIT =>
      Val.q (get_iron_deposit ops W loc.longitude loc.latitude)
  | DataType.OIL_DEPOSIT =>
      Val.q (get_oil_deposit ops W loc.longitude loc.latitude)
  | DataType.INSOLATION =>
      Val.q (get_insolation ops W loc.longitude loc.latitude loc.current_time)
  | DataType.IS_DAYLIGHT =>
      Val.b (is_daylight ops W.config loc.longitude loc.latitude
        loc.current_time)
  | DataType.SOLAR_ANGLE =>
      Val.q (get_solar_angle ops W.config loc.longitude loc.latitude
        loc.current_time)
  | DataType.VEGETATION_DENSITY =>
      Val.q (get_vegetation_density ops W loc.longitude loc.latitude c.altitude)
  | DataType.SOIL_TYPE =>
      Val.stype (get_soil_type ops W loc.longitude loc.latitude c.altitude)
  | DataType.SOIL_FERTILITY =>
      Val.q (get_soil_fertility ops W loc.longitude loc.latitude c.altitude)
  | DataType.SOIL_PH =>
      Val.q (get_soil_ph ops W loc.longitude loc.latitude c.altitude)
  | DataType.ORGANIC_MATTER =>
      Val.q (get_organic_matter ops W loc.longitude loc.latitude c.altitude)
  | DataType.PRESSURE_AT_LOCATION =>
      Val.q (get_pressure_at_location ops W loc.longitude loc.latitude
        c.altitude loc.current_time)
  | DataType.PRESSURE_GRADIENT =>
      Val.q (get_pressure_gradient ops W loc.longitude loc.latitude
        loc.current_time)
  | DataType.IS_STORM_FRONT =>
      Val.b (is_storm_front ops W loc.longitude loc.latitude loc.current_time)

/-- Invariant of the per-location cache for a location whose stored
altitude is nonzero: the working altitude stays the stored one, and a
computed terrain height is the one at the location's detail level. -/
def cache_ok (ops : FloatOps) (W : World) (loc : Location) (c : LocCache) :
    Prop :=
  c.altitude = loc.altitude ∧
    (c.terrain_computed = true →
      c.terrain_height =
        get_terrain_height ops W loc.longitude loc.latitude loc.detail_level)

theorem process_type_fst (ops : FloatOps) (W : World) (loc : Location)
    (s : LocCache × BatchResult) (τ : DataType) :
    (process_type ops W loc s τ).1 =
      if triggers_terrain τ then ensure_terrain ops W loc s.1 else s.1 := by
  cases τ <;> rfl

theorem ensure_terrain_of_ne (ops : FloatOps) (W : World) (loc : Location)
    (c : LocCache) (h0 : loc.altitude ≠ 0)
    (hc : cache_ok ops W loc c) :
    ensure_terrain ops W loc c =
      { terrain_height :=
          get_terrain_height ops W loc.longitude loc.latitude loc.detail_level
        altitude := loc.altitude
        terrain_computed := true } := by
  obtain ⟨ha, hth⟩ := hc
  unfold ensure_terrain
  by_cases h : c.terrain_computed
  · cases c
    simp only at ha hth h
    subst h
    simp [ha, hth rfl]
  · simp only [h, Bool.false_eq_true, if_false, if_neg h0]

theorem cache_ok_init (ops : FloatOps) (W : World) (loc : Location) :
    cache_ok ops W loc (init_cache loc) := by
  constructor
  · rfl
  · intro h
    simp [init_cache] at h

theorem cache_ok_step (ops : FloatOps) (W : World) (loc : Location)
    (s : LocCache × BatchResult) (τ : DataType) (h0 : loc.altitude ≠ 0)
    (hc : cache_ok ops W loc s.1) :
    cache_ok ops W loc (process_type ops W loc s τ).1 := by
  rw [process_type_fst]
  by_cases h : triggers_terrain τ
  · rw [if_pos h, ensure_terrain_of_ne ops W loc s.1 h0 hc]
    exact ⟨rfl, fun _ => rfl⟩
  · rw [if_neg h]
    exact hc

theorem process_type_channel (ops : FloatOps) (W : World) (loc : Location)
    (s : LocCache × BatchResult) (τ : DataType) (ch : Channel) :
    get_channel (process_type ops W loc s τ).2 ch =
      get_channel s.2 ch ++
        (if channel_of τ = ch then
          [batch_value ops W loc (process_type ops W loc s τ).1 τ]
         else []) := by
  rcases s with ⟨c, r⟩
  cases τ <;> cases ch <;>
    simp [process_type, get_channel, channel_of, batch_value]

theorem ptype_branch_flip (temp precip : ℚ) :
    (if 100 ≤ precip then
       if temp < -2 then PrecipitationType.SNOW
       else if temp < 2 then PrecipitationType.SLEET
       else PrecipitationType.RAIN
     else PrecipitationType.NONE) =
    (if precip < 100 then PrecipitationType.NONE
     else if temp < -2 then PrecipitationType.SNOW
     else if temp < 2 then PrecipitationType.SLEET
     else PrecipitationType.RAIN) := by
  rcases lt_or_ge precip 100 with h | h
  · rw [if_neg (not_le.mpr h), if_pos h]
  · rw [if_pos h, if_neg (not_lt.mpr h)]

theorem batch_value_eq_individual (ops : FloatOps) (W : World) (loc : Location)
    (s : LocCache × BatchResult) (τ : DataType) (h0 : loc.altitude ≠ 0)
    (hc : cache_ok ops W loc s.1) :
    batch_value ops W loc (process_type ops W loc s τ).1 τ =
      individual ops W τ loc := by
  have hens := ensure_terrain_of_ne ops W loc s.1 h0 hc
  have ha := hc.1
  cases τ <;>
    simp [batch_value, individual, process_type_fst, triggers_terrain, hens, ha,
      get_precipitation_type, ptype_branch_flip]

/-- Concatenation of per-location output lists, in input order. -/
def gather (f : Location → List Val) : List Location → List Val
  | [] => []
  | l :: ls => f l ++ gather f ls

theorem types_fold_channel (ops : FloatOps) (W : World) (loc : Location)
    (h0 : loc.altitude ≠ 0) :
    ∀ (ts : List DataType) (s : LocCache × BatchResult),
      cache_ok ops W loc s.1 → ∀ ch,
      get_channel ((ts.foldl (process_type ops W loc) s).2) ch =
        get_channel s.2 ch ++
          (ts.filter (fun τ => decide (channel_of τ = ch))).map
            (fun τ => individual ops W τ loc) := by
  intro ts
  induction ts with
  | nil => intro s _ ch; simp
  | cons τ ts ih =>
    intro s hc ch
    rw [List.foldl_cons]
    have hstep : cache_ok ops W loc (process_type ops W loc s τ).1 :=
      cache_ok_step ops W loc s τ h0 hc
    rw [ih (process_type ops W loc s τ) hstep ch]
    rw [process_type_channel ops W loc s τ ch]
    rw [batch_value_eq_individual ops W loc s τ h0 hc]
    rw [List.append_assoc]
    congr 1
    by_cases h : channel_of τ = ch
    · rw [if_pos h, List.filter_cons_of_pos (by simpa using h), List.map_cons]
      rfl
    · rw [if_neg h, List.filter_cons_of_neg (by simpa using h), List.nil_append]

theorem get_channel_empty_count (n : ℕ) (ch : Channel) :
    get_channel { BatchResult.empty with count := n } ch = [] := by
  cases ch <;> rfl

theorem locs_fold_channel (ops : FloatOps) (W : World) (ts : List DataType) :
    ∀ (locs : List Location) (r : BatchResult),
      (∀ loc ∈ locs, loc.altitude ≠ 0) → ∀ ch,
      get_channel
        (locs.foldl
          (fun r loc =>
            (ts.foldl (process_type ops W loc) (init_cache loc, r)).2) r) ch =
        get_channel r ch ++
          gather
            (fun loc =>
              (ts.filter (fun τ => decide (channel_of τ = ch))).map
                (fun τ => individual ops W τ loc)) locs := by
  intro locs
  induction locs with
  | nil => intro r _ ch; simp [gather]
  | cons loc locs ih =>
    intro r hne ch
    rw [List.foldl_cons]
    rw [ih _ (fun l hl => hne l (List.mem_cons_of_mem loc hl)) ch]
    rw [types_fold_channel ops W loc (hne loc (List.mem_cons_self loc locs))
      ts (init_cache loc, r) (cache_ok_init ops W loc) ch]
    rw [gather, List.append_assoc]

theorem filter_channel_single (ts : List DataType)
    (hp : ts.Pairwise (fun a b => channel_of a ≠ channel_of b))
    (τ : DataType) (hτ : τ ∈ ts) :
    ts.filter (fun σ => decide (channel_of σ = channel_of τ)) = [τ] := by
  induction ts with
  | nil => cases hτ
  | cons a ts ih =>
    rcases List.pairwise_cons.mp hp with ⟨ha, hp'⟩
    rcases List.mem_cons.mp hτ with heq | hmem
    · subst heq
      rw [List.filter_cons_of_pos (by simp)]
      have hnil : ts.filter (fun σ => decide (channel_of σ = channel_of τ)) = [] := by
        apply List.filter_eq_nil_iff.mpr
        intro b hb
        simpa using fun h => ha b hb h.symm
      rw [hnil]
    · have hne : channel_of a ≠ channel_of τ := ha τ hmem
      rw [List.filter_cons_of_neg (by simpa using hne), ih hp' hmem]

theorem gather_singleton (f : Location → List Val) (g : Location → Val)
    (h : ∀ l, f l = [g l]) :
    ∀ locs : List Location, gather f locs = locs.map g := by
  intro locs
  induction locs with
  | nil => rfl
  | cons l ls ih => rw [gather, h l, List.map_cons, ih]; rfl

/-- A concrete instantiation of the abstract math library, for concrete
evaluations: constant cosine, identity sine/asin, constant exp, first
projection for pow, identity sqrt. -/
def ops1 : FloatOps :=
  { cos := fun _ => 1
    sin := fun t => t
    asin := fun t => t
    exp := fun _ => 1
    pow := fun x _ => x
    sqrt := fun x => x
    log2 := fun _ => 0 }

/-- A concrete noise bank: flat terrain noise 1/8 (terrain height 1000 m
under `cfg1`), all other fields zero. -/
def bank1 : NoiseBank :=
  { terrain_noise := fun _ _ _ => 1/8
    moisture_noise := fun _ _ _ => 0
    temperature_variation_noise := fun _ _ _ => 0
    wind_noise := fun _ _ _ => 0
    river_noise := fun _ _ _ => 0
    volcano_noise := fun _ _ _ => 0
    coal_noise := fun _ _ _ => 0
    iron_noise := fun _ _ _ => 0
    oil_noise := fun _ _ _ => 0
    cloud_noise := fun _ _ _ => 0
    weather_noise := fun _ _ _ => 0
    pressure_noise := fun _ _ _ => 0 }

/-- Default configuration with a round 8000 m maximum terrain height. -/
def cfg1 : WorldConfig := { default_config with max_terrain_height := 8000 }

/-- A concrete generator-construction function. -/
def mk1 : WorldConfig → NoiseBank := fun _ => bank1

/-- A concrete world. -/
def W1 : World := World.init mk1 cfg1

/-- A location with altitude field 0 (terrain-derived altitude). -/
def loc1 : Location :=
  { longitude := 0, latitude := 0, altitude := 0, current_time := 12,
    detail_level := 1 }

/-- A location with nonzero stored altitude. -/
def loc2 : Location :=
  { longitude := 0, latitude := 0, altitude := 100, current_time := 12,
    detail_level := 1 }

/-- Claim C2, counterexample: `batch_query` with one location and an empty
type list returns count = 1, not count = 0 — `count` is assigned
`locations.size()` before the emptiness check (world.cpp line 1472). -/
theorem claim_C2_counterexample :
    (batch_query ops1 W1 [loc1] []).count = 1 ∧
      (batch_query ops1 W1 [loc1] []).count ≠ 0 := by
  exact ⟨rfl, by decide⟩

/-- Claim C2 (amended): `batch_query` with empty locations or an empty
type list does not fail and returns a result whose channel sequences are
all empty and whose count equals the number of input locations (which is 0
only when the locations vector itself is empty). -/
theorem claim_C2_amended (ops : FloatOps) (W : World) (locs : List Location)
    (ts : List DataType) (h : locs = [] ∨ ts = []) :
    batch_query ops W locs ts =
      { BatchResult.empty with count := locs.length } := by
  unfold batch_query
  rcases h with h | h <;> subst h <;> simp

/-- Witness for claim C2's amended theorem at a nonempty location list and
an empty type list. -/
theorem claim_C2_witness :
    ([loc1] = ([] : List Location) ∨ ([] : List DataType) = []) ∧
      batch_query ops1 W1 [loc1] [] =
        { BatchResult.empty with count := 1 } :=
  ⟨Or.inr rfl, claim_C2_amended ops1 W1 [loc1] [] (Or.inr rfl)⟩

/-- A configuration with a non-positive terrain frequency, which the spec
says `set_config` must reject. -/
def bad_config : WorldConfig := { default_config with terrain_frequency := -1 }

/-- Claim C3, counterexample: `set_config` performs no validation
(world.cpp lines 1749-1752).  A configuration with terrain_frequency = -1
is committed unconditionally, and the previously active configuration is
replaced rather than left intact. -/
theorem claim_C3_counterexample :
    bad_config.terrain_frequency ≤ 0 ∧
      (set_config mk1 W1 bad_config).config = bad_config ∧
      (set_config mk1 W1 bad_config).config ≠ W1.config := by
  refine ⟨by norm_num [bad_config, default_config], rfl, ?_⟩
  intro h
  have h2 := congrArg WorldConfig.terrain_frequency h
  norm_num [set_config, bad_config, W1, World.init, cfg1, default_config, mk1] at h2

/-- Claim C3 (amended): `set_config` performs no validation and has no
failure path: it unconditionally replaces the active configuration with
the supplied one — valid or not — and rebuilds the noise generator bank
from it. -/
theorem claim_C3_amended (mk : WorldConfig → NoiseBank) (W : World)
    (cfg : WorldConfig) :
    (set_config mk W cfg).config = cfg ∧
      (set_config mk W cfg).bank = mk cfg :=
  ⟨rfl, rfl⟩

/-- Claim C4, counterexample: no latitude clamping happens anywhere; the
base temperature extrapolates past the pole, so the temperature at
latitude 95 differs from the temperature at latitude 90. -/
theorem claim_C4_counterexample :
    get_temperature ops1 W1 0 95 0 ≠ get_temperature ops1 W1 0 90 0 ∧
      get_base_temperature cfg1 95 0 = -395/9 ∧
      get_base_temperature cfg1 90 0 = -40 := by
  refine ⟨?_, ?_, ?_⟩
  · intro h
    norm_num [get_temperature, get_base_temperature, W1, World.init, cfg1,
      default_config, bank1, mk1, geo_to_world, ops1] at h
  · norm_num [get_base_temperature, cfg1, default_config]
  · norm_num [get_base_temperature, cfg1, default_config]

/-- Claim C4 (amended): out-of-range latitudes are NOT clamped;
`get_base_temperature` uses |latitude|/90 as given, so whenever the
equator and pole temperatures differ, the result at latitude 95 differs
from the result at latitude 90. -/
theorem claim_C4_amended (cfg : WorldConfig) (altitude : ℚ)
    (hne : cfg.equator_temperature ≠ cfg.pole_temperature) :
    get_base_temperature cfg 95 altitude ≠ get_base_temperature cfg 90 altitude := by
  intro h
  apply hne
  simp only [get_base_temperature,
    abs_of_nonneg (by norm_num : (0:ℚ) ≤ 95),
    abs_of_nonneg (by norm_num : (0:ℚ) ≤ 90)] at h
  linarith

/-- Witness for claim C4's amended theorem on the concrete configuration
`cfg1` (equator 30 °C, pole -40 °C). -/
theorem claim_C4_witness :
    cfg1.equator_temperature ≠ cfg1.pole_temperature ∧
      get_base_temperature cfg1 95 0 ≠ get_base_temperature cfg1 90 0 :=
  ⟨by norm_num [cfg1, default_config],
    claim_C4_amended cfg1 0 (by norm_num [cfg1, default_config])⟩

/-- Claim C7: `set_config(cfg)` followed by any query equals constructing
a fresh World with `cfg`: the Impl state is exactly the configuration plus
the generator bank, and `initialize_noise_generators` derives the bank
from the new configuration alone, so the two worlds are equal as states
and all queries agree. -/
theorem claim_C7 (ops : FloatOps) (mk : WorldConfig → NoiseBank) (W : World)
    (cfg : WorldConfig) :
    set_config mk W cfg = World.init mk cfg ∧
    (∀ lon lat detail, get_terrain_height ops (set_config mk W cfg) lon lat detail =
      get_terrain_height ops (World.init mk cfg) lon lat detail) ∧
    (∀ lon lat alt, get_temperature ops (set_config mk W cfg) lon lat alt =
      get_temperature ops (World.init mk cfg) lon lat alt) ∧
    (∀ lon lat alt, classify_biome ops (set_config mk W cfg) lon lat alt =
      classify_biome ops (World.init mk cfg) lon lat alt) ∧
    (∀ lon lat t, get_insolation ops (set_config mk W cfg) lon lat t =
      get_insolation ops (World.init mk cfg) lon lat t) ∧
    (∀ locs ts, batch_query ops (set_config mk W cfg) locs ts =
      batch_query ops (World.init mk cfg) locs ts) :=
  ⟨rfl, fun _ _ _ => rfl, fun _ _ _ => rfl, fun _ _ _ => rfl, fun _ _ _ => rfl,
    fun _ _ => rfl⟩

/-- Claim C1 (amended): for locations whose altitude field is NONZERO,
`batch_query` entries equal the corresponding individual query results at
the location's stored longitude, latitude, altitude, current_time and
detail_level, element-wise in location-major then-type order (here stated
per output channel, for type lists with no two aliases of one channel).
For a location whose altitude field is 0 the batch engine substitutes the
terrain-derived altitude max(terrain_height, 0) into altitude-consuming
queries, so the original claim fails there (see the counterexample). -/
theorem claim_C1_amended (ops : FloatOps) (W : World) (locs : List Location)
    (ts : List DataType) (halt : ∀ loc ∈ locs, loc.altitude ≠ 0)
    (hp : ts.Pairwise (fun a b => channel_of a ≠ channel_of b))
    (τ : DataType) (hτ : τ ∈ ts) :
    get_channel (batch_query ops W locs ts) (channel_of τ) =
      locs.map (fun loc => individual ops W τ loc) := by
  unfold batch_query
  cases locs with
  | nil => simp [get_channel_empty_count]
  | cons l ls =>
    cases ts with
    | nil => cases hτ
    | cons σ ts' =>
      have hguard : ((l :: ls).isEmpty || (σ :: ts').isEmpty) = false := by simp
      simp only [hguard, Bool.false_eq_true, if_false]
      rw [locs_fold_channel ops W (σ :: ts') (l :: ls) _ halt (channel_of τ)]
      rw [get_channel_empty_count, List.nil_append]
      rw [gather_singleton _ (fun loc => individual ops W τ loc)
        (fun loc' => by rw [filter_channel_single (σ :: ts') hp τ hτ]; rfl)]

/-- Claim C1, counterexample: for a location with altitude field 0 on
terrain of height 1000 m, the batch TEMPERATURE entry is computed at the
terrain-derived altitude (23.5 °C) and differs from the individual
`get_temperature` call at the stored altitude 0 (30 °C). -/
theorem claim_C1_counterexample :
    (batch_query ops1 W1 [loc1] [DataType.TEMPERATURE]).temperature = [47/2] ∧
      get_temperature ops1 W1 0 0 0 = 30 ∧
      (batch_query ops1 W1 [loc1] [DataType.TEMPERATURE]).temperature ≠
        [get_temperature ops1 W1 0 0 0] := by
  refine ⟨?_, ?_, ?_⟩ <;>
    norm_num [batch_query, process_type, ensure_terrain, init_cache,
      BatchResult.empty, loc1, W1, World.init, mk1, bank1, cfg1,
      default_config, ops1, get_terrain_height, geo_to_world,
      get_temperature, get_base_temperature, clampf]

/-- Witness for claim C1's amended theorem: one location with stored
altitude 100, one requested type. -/
theorem claim_C1_witness :
    (∀ loc ∈ [loc2], loc.altitude ≠ 0) ∧
      get_channel (batch_query ops1 W1 [loc2] [DataType.TEMPERATURE])
          (channel_of DataType.TEMPERATURE) =
        [individual ops1 W1 DataType.TEMPERATURE loc2] :=
  ⟨by norm_num [loc2],
    claim_C1_amended ops1 W1 [loc2] [DataType.TEMPERATURE]
      (by norm_num [loc2]) (by simp) DataType.TEMPERATURE (by simp)⟩

set_option maxHeartbeats 3000000 in
theorem biome_tree_cases (sl h t m alt : ℚ) (hsl : -1000 ≤ sl)
    (b : BiomeType)
    (hb : b =
      (if h < sl then
        (if h < -1000 then BiomeType.DEEP_OCEAN else BiomeType.OCEAN)
       else if h < 5 then BiomeType.BEACH
       else if t < -15 then
        (if h < 100 then BiomeType.ICE else BiomeType.SNOW)
       else if 4000 < alt then BiomeType.MOUNTAIN_PEAK
       else if 2500 < alt then
        (if t < 0 then BiomeType.MOUNTAIN_TUNDRA else BiomeType.MOUNTAIN_FOREST)
       else if t < 0 then
        (if m < 0.3 then BiomeType.COLD_DESERT else BiomeType.TUNDRA)
       else if t < 10 then
        (if m < 0.3 then BiomeType.COLD_DESERT
         else if m < 0.6 then BiomeType.GRASSLAND
         else BiomeType.TAIGA)
       else if t < 20 then
        (if m < 0.3 then BiomeType.GRASSLAND
         else if m < 0.6 then BiomeType.TEMPERATE_DECIDUOUS_FOREST
         else BiomeType.TEMPERATE_RAINFOREST)
       else
        (if m < 0.2 then BiomeType.DESERT
         else if m < 0.5 then BiomeType.SAVANNA
         else if m < 0.7 then BiomeType.TROPICAL_SEASONAL_FOREST
         else BiomeType.TROPICAL_RAINFOREST))) :
    ((b = BiomeType.OCEAN ∨ b = BiomeType.DEEP_OCEAN) ↔ h < sl) ∧
    (b = BiomeType.DEEP_OCEAN ↔ h < -1000) ∧
    (b = BiomeType.BEACH ↔ (sl ≤ h ∧ h < 5)) := by
  subst hb
  split_ifs <;> refine ⟨?_, ?_, ?_⟩ <;> simp_all <;> linarith

/-- Claim C5: for every location, the biome is OCEAN or DEEP_OCEAN exactly
when terrain height is below sea level (DEEP_OCEAN exactly below -1000 m,
for any sea level of at least -1000 m), and BEACH exactly when terrain
height lies in [sea_level, 5). -/
theorem claim_C5 (ops : FloatOps) (W : World) (longitude latitude altitude : ℚ)
    (hsl : -1000 ≤ W.config.sea_level) :
    ((classify_biome ops W longitude latitude altitude = BiomeType.OCEAN ∨
        classify_biome ops W longitude latitude altitude = BiomeType.DEEP_OCEAN) ↔
      get_terrain_height ops W longitude latitude 1 < W.config.sea_level) ∧
    (classify_biome ops W longitude latitude altitude = BiomeType.DEEP_OCEAN ↔
      get_terrain_height ops W longitude latitude 1 < -1000) ∧
    (classify_biome ops W longitude latitude altitude = BiomeType.BEACH ↔
      (W.config.sea_level ≤ get_terrain_height ops W longitude latitude 1 ∧
        get_terrain_height ops W longitude latitude 1 < 5)) := by
  exact biome_tree_cases (W.config.sea_level)
    (get_terrain_height ops W longitude latitude 1)
    (get_temperature ops W longitude latitude altitude)
    (get_moisture ops W longitude latitude) altitude hsl
    (classify_biome ops W longitude latitude altitude) rfl

/-- Witness for claim C5 on the concrete world `W1` at the origin. -/
theorem claim_C5_witness :
    (-1000 : ℚ) ≤ W1.config.sea_level ∧
      (((classify_biome ops1 W1 0 0 0 = BiomeType.OCEAN ∨
          classify_biome ops1 W1 0 0 0 = BiomeType.DEEP_OCEAN) ↔
        get_terrain_height ops1 W1 0 0 1 < W1.config.sea_level) ∧
      (classify_biome ops1 W1 0 0 0 = BiomeType.DEEP_OCEAN ↔
        get_terrain_height ops1 W1 0 0 1 < -1000) ∧
      (classify_biome ops1 W1 0 0 0 = BiomeType.BEACH ↔
        (W1.config.sea_level ≤ get_terrain_height ops1 W1 0 0 1 ∧
          get_terrain_height ops1 W1 0 0 1 < 5))) :=
  ⟨by norm_num [W1, World.init, cfg1, default_config],
    claim_C5 ops1 W1 0 0 0 (by norm_num [W1, World.init, cfg1, default_config])⟩

theorem clampf_lb (v lo hi : ℚ) (h : lo ≤ hi) : lo ≤ clampf v lo hi := by
  unfold clampf; split_ifs <;> linarith

theorem clampf_ub (v lo hi : ℚ) (h : lo ≤ hi) : clampf v lo hi ≤ hi := by
  unfold clampf; split_ifs <;> linarith

theorem clampf_pos (v hi : ℚ) (hv : 0 < v) (hhi : 0 < hi) :
    0 < clampf v 0 hi := by
  unfold clampf; split_ifs <;> linarith

theorem cloud_density_le_one (ops : FloatOps) (W : World)
    (longitude latitude altitude : ℚ) :
    get_cloud_density ops W longitude latitude altitude ≤ 1 := by
  simp only [get_cloud_density]
  exact clampf_ub _ _ _ (by norm_num)

/-- Claim C6 (amended): on land (terrain height strictly above sea level),
river width is 0 when flow < 0.4 and otherwise equals
clamp(5 + ((flow-0.4)/0.6)^2 * 40 * elevation_factor * precip_factor, 0, 500);
at flow exactly 0.4 the width is 5, not 0, so river_width > 0 is
equivalent to flow ≥ 0.4 while is_river is flow > 0.4 — the two differ
exactly on the boundary flow = 0.4. -/
theorem claim_C6_amended (ops : FloatOps) (W : World) (longitude latitude : ℚ)
    (h flow ef pf : ℚ)
    (hh : h = get_terrain_height ops W longitude latitude 1)
    (hflow : flow = get_flow_accumulation ops W longitude latitude)
    (hef : ef = if h < 500 then 2 + (500 - h) / 500 * 3 else 1)
    (hpf : pf = 0.5 +
      clampf (get_precipitation ops W longitude latitude (max h 0) / 2000) 0 1
        * 0.5)
    (hland : W.config.sea_level < h) :
    (flow < 0.4 → get_river_width ops W longitude latitude = 0) ∧
    (0.4 ≤ flow →
      get_river_width ops W longitude latitude =
        clampf (5 + (flow - 0.4) / 0.6 * ((flow - 0.4) / 0.6) * 40 * ef * pf)
          0 500) ∧
    (0 < get_river_width ops W longitude latitude ↔ 0.4 ≤ flow) ∧
    (is_river ops W longitude latitude = true ↔ 0.4 < flow) := by
  subst hh hflow hef hpf
  have hnot : ¬ get_terrain_height ops W longitude latitude 1 ≤
      W.config.sea_level := not_le.mpr hland
  have hwidth_lt : get_flow_accumulation ops W longitude latitude < 0.4 →
      get_river_width ops W longitude latitude = 0 := by
    intro hlt
    simp only [get_river_width]
    rw [if_neg hnot, if_pos hlt]
  have hwidth_ge : 0.4 ≤ get_flow_accumulation ops W longitude latitude →
      get_river_width ops W longitude latitude =
        clampf (5 +
          (get_flow_accumulation ops W longitude latitude - 0.4) / 0.6 *
            ((get_flow_accumulation ops W longitude latitude - 0.4) / 0.6) *
            40 *
            (if get_terrain_height ops W longitude latitude 1 < 500 then
              2 + (500 - get_terrain_height ops W longitude latitude 1) / 500 * 3
             else 1) *
            (0.5 +
              clampf
                (get_precipitation ops W longitude latitude
                    (max (get_terrain_height ops W longitude latitude 1) 0) /
                  2000) 0 1 * 0.5)) 0 500 := by
    intro hge
    simp only [get_river_width]
    rw [if_neg hnot, if_neg (not_lt.mpr hge)]
  refine ⟨hwidth_lt, hwidth_ge, ?_, ?_⟩
  · constructor
    · intro hpos
      by_contra hcon
      rw [not_le] at hcon
      rw [hwidth_lt hcon] at hpos
      exact lt_irrefl 0 hpos
    · intro hge
      rw [hwidth_ge hge]
      apply clampf_pos _ _ _ (by norm_num)
      have hb2 : 0 ≤ (get_flow_accumulation ops W longitude latitude - 0.4) / 0.6 *
          ((get_flow_accumulation ops W longitude latitude - 0.4) / 0.6) :=
        mul_self_nonneg _
      have hef_pos : (0:ℚ) <
          (if get_terrain_height ops W longitude latitude 1 < 500 then
            2 + (500 - get_terrain_height ops W longitude latitude 1) / 500 * 3
           else 1) := by
        split_ifs with hc
        · linarith
        · norm_num
      have hpf_lb : (0.5:ℚ) ≤ 0.5 +
          clampf (get_precipitation ops W longitude latitude
              (max (get_terrain_height ops W longitude latitude 1) 0) / 2000)
            0 1 * 0.5 := by
        have := clampf_lb (get_precipitation ops W longitude latitude
            (max (get_terrain_height ops W longitude latitude 1) 0) / 2000)
          0 1 (by norm_num)
        linarith
      have hterm : 0 ≤ (get_flow_accumulation ops W longitude latitude - 0.4) / 0.6 *
          ((get_flow_accumulation ops W longitude latitude - 0.4) / 0.6) * 40 *
          (if get_terrain_height ops W longitude latitude 1 < 500 then
            2 + (500 - get_terrain_height ops W longitude latitude 1) / 500 * 3
           else 1) *
          (0.5 +
            clampf (get_precipitation ops W longitude latitude
                (max (get_terrain_height ops W longitude latitude 1) 0) / 2000)
              0 1 * 0.5) := by
        apply mul_nonneg
        apply mul_nonneg
        apply mul_nonneg hb2
        · norm_num
        · exact le_of_lt hef_pos
        · linarith
      linarith
  · simp only [is_river]
    rw [if_neg hnot]
    by_cases hc : (0.4:ℚ) < get_flow_accumulation ops W longitude latitude
    · simp [hc]
    · simp [hc]

/-- Configuration for the boundary-flow world: 8000 m max terrain height
and zero lapse rate (so temperature is altitude-independent). -/
def cfg6 : WorldConfig :=
  { default_config with max_terrain_height := 8000, temperature_lapse_rate := 0 }

/-- Noise bank engineered so that flow accumulation at the origin is
exactly 0.4: terrain noise 1/160 at the origin sample point (height 50 m)
and 1/80 elsewhere (height 100 m), moisture noise 2/7 (annual
precipitation 1500 mm), river noise 1. -/
def bank6 : NoiseBank :=
  { terrain_noise := fun _ y z => if y = 0 ∧ z = 0 then 1/160 else 1/80
    moisture_noise := fun _ _ _ => 2/7
    temperature_variation_noise := fun _ _ _ => 0
    wind_noise := fun _ _ _ => 0
    river_noise := fun _ _ _ => 1
    volcano_noise := fun _ _ _ => 0
    coal_noise := fun _ _ _ => 0
    iron_noise := fun _ _ _ => 0
    oil_noise := fun _ _ _ => 0
    cloud_noise := fun _ _ _ => 0
    weather_noise := fun _ _ _ => 0
    pressure_noise := fun _ _ _ => 0 }

/-- A world in which the origin has flow accumulation exactly 0.4. -/
def W6 : World := World.init (fun _ => bank6) cfg6

/-- Claim C6, counterexample: at a land point with flow accumulation
exactly 0.4, the code returns river width 5 (its test is `flow < 0.4`,
not `flow ≤ 0.4`), while is_river is false (`flow > 0.4`) — so the
claimed "width 0 at flow exactly 0.4" and the claimed equivalence
river_width > 0 ⇔ is_river both fail. -/
theorem claim_C6_counterexample :
    get_flow_accumulation ops1 W6 0 0 = 2/5 ∧
      get_river_width ops1 W6 0 0 = 5 ∧
      is_river ops1 W6 0 0 = false ∧
      W6.config.sea_level < get_terrain_height ops1 W6 0 0 1 := by
  refine ⟨?_, ?_, ?_, ?_⟩ <;>
    norm_num [get_flow_accumulation, get_river_width, is_river,
      get_terrain_height, geo_to_world, get_precipitation, get_moisture,
      get_temperature, get_base_temperature, clampf, W6, World.init, cfg6,
      default_config, bank6, ops1, pi_f, max_def]

/-- Witness for claim C6's amended theorem on the boundary-flow world:
terrain height 50 m, flow exactly 2/5, elevation factor 4.7, precip
factor 7/8. -/
theorem claim_C6_witness :
    W6.config.sea_level < 50 ∧
      (((2:ℚ)/5 < 0.4 → get_river_width ops1 W6 0 0 = 0) ∧
      ((0.4:ℚ) ≤ 2/5 →
        get_river_width ops1 W6 0 0 =
          clampf (5 + ((2:ℚ)/5 - 0.4) / 0.6 * (((2:ℚ)/5 - 0.4) / 0.6) * 40 *
            (47/10) * (7/8)) 0 500) ∧
      (0 < get_river_width ops1 W6 0 0 ↔ (0.4:ℚ) ≤ 2/5) ∧
      (is_river ops1 W6 0 0 = true ↔ (0.4:ℚ) < 2/5)) :=
  ⟨by norm_num [W6, World.init, cfg6, default_config],
    claim_C6_amended ops1 W6 0 0 50 (2/5) (47/10) (7/8)
      (by norm_num [get_terrain_height, geo_to_world, W6, World.init, cfg6,
        default_config, bank6, ops1, pi_f, clampf])
      (by norm_num [get_flow_accumulation, get_terrain_height, geo_to_world,
        get_precipitation, get_moisture, get_temperature, get_base_temperature,
        clampf, W6, World.init, cfg6, default_config, bank6, ops1, pi_f,
        max_def])
      (by norm_num)
      (by norm_num [get_precipitation, get_moisture, get_temperature,
        get_base_temperature, get_terrain_height, geo_to_world, clampf, W6,
        World.init, cfg6, default_config, bank6, ops1, pi_f, max_def])
      (by norm_num [W6, World.init, cfg6, default_config])⟩

/-- Claim C8: insolation is always within [0, 1400] W/m², and is 0 exactly
when the location is not in daylight (solar elevation angle not above 0).
The strict-positivity direction holds under the two stated facts about the
real math functions at the evaluated points: sin is positive at the
(positive) solar angle converted to radians, and 0.7^airmass is
positive. -/
theorem claim_C8 (ops : FloatOps) (W : World)
    (longitude latitude current_time : ℚ)
    (hsin : 0 < get_solar_angle ops W.config longitude latitude current_time →
      0 < ops.sin (get_solar_angle ops W.config longitude latitude current_time
        * m_pi / 180))
    (hpow : 0 < ops.pow 0.7
      (clampf (1 / ops.sin (get_solar_angle ops W.config longitude latitude
        current_time * m_pi / 180)) 1 10)) :
    (0 ≤ get_insolation ops W longitude latitude current_time ∧
      get_insolation ops W longitude latitude current_time ≤ 1400) ∧
    (get_insolation ops W longitude latitude current_time = 0 ↔
      is_daylight ops W.config longitude latitude current_time = false) := by
  by_cases hle : get_solar_angle ops W.config longitude latitude current_time ≤ 0
  · have hins : get_insolation ops W longitude latitude current_time = 0 := by
      simp only [get_insolation]
      rw [if_pos hle]
    have hday : is_daylight ops W.config longitude latitude current_time = false := by
      simp only [is_daylight]
      rw [if_neg (not_lt.mpr hle)]
    rw [hins, hday]
    norm_num
  · rw [not_le] at hle
    have hins : get_insolation ops W longitude latitude current_time =
        clampf (1361 *
          ops.sin (get_solar_angle ops W.config longitude latitude current_time
            * m_pi / 180) *
          ops.pow 0.7
            (clampf (1 / ops.sin (get_solar_angle ops W.config longitude
              latitude current_time * m_pi / 180)) 1 10) *
          (1 - get_cloud_density ops W longitude latitude
            (max (get_terrain_height ops W longitude latitude 1) 0) * 0.7))
          0 1400 := by
      simp only [get_insolation]
      rw [if_neg (not_le.mpr hle)]
    have hcd := cloud_density_le_one ops W longitude latitude
      (max (get_terrain_height ops W longitude latitude 1) 0)
    have hfac : 0 < 1 - get_cloud_density ops W longitude latitude
        (max (get_terrain_height ops W longitude latitude 1) 0) * 0.7 := by
      linarith
    have hvpos : 0 < 1361 *
        ops.sin (get_solar_angle ops W.config longitude latitude current_time
          * m_pi / 180) *
        ops.pow 0.7
          (clampf (1 / ops.sin (get_solar_angle ops W.config longitude latitude
            current_time * m_pi / 180)) 1 10) *
        (1 - get_cloud_density ops W longitude latitude
          (max (get_terrain_height ops W longitude latitude 1) 0) * 0.7) := by
      apply mul_pos
      apply mul_pos
      apply mul_pos
      · norm_num
      · exact hsin hle
      · exact hpow
      · exact hfac
    have hpos : 0 < get_insolation ops W longitude latitude current_time := by
      rw [hins]
      exact clampf_pos _ _ hvpos (by norm_num)
    have hday : is_daylight ops W.config longitude latitude current_time = true := by
      simp only [is_daylight]
      rw [if_pos hle]
    rw [hday]
    refine ⟨⟨?_, ?_⟩, ?_⟩
    · rw [hins]; exact clampf_lb _ _ _ (by norm_num)
    · rw [hins]; exact clampf_ub _ _ _ (by norm_num)
    · exact iff_of_false (ne_of_gt hpos) (by simp)

/-- Witness for claim C8 on `W1` at noon at the origin (solar angle
180/π degrees, i.e. 1 radian, with the concrete math functions). -/
theorem claim_C8_witness :
    (0 < get_solar_angle ops1 W1.config 0 0 12 →
      0 < ops1.sin (get_solar_angle ops1 W1.config 0 0 12 * m_pi / 180)) ∧
    (0 < ops1.pow 0.7
      (clampf (1 / ops1.sin (get_solar_angle ops1 W1.config 0 0 12 * m_pi / 180))
        1 10)) ∧
    ((0 ≤ get_insolation ops1 W1 0 0 12 ∧
      get_insolation ops1 W1 0 0 12 ≤ 1400) ∧
    (get_insolation ops1 W1 0 0 12 = 0 ↔
      is_daylight ops1 W1.config 0 0 12 = false)) := by
  have h1 : 0 < get_solar_angle ops1 W1.config 0 0 12 →
      0 < ops1.sin (get_solar_angle ops1 W1.config 0 0 12 * m_pi / 180) := by
    intro _
    norm_num [get_solar_angle, norm24, floorQ, clampf, m_pi, ops1, W1,
      World.init, cfg1, default_config]
  have h2 : 0 < ops1.pow 0.7
      (clampf (1 / ops1.sin (get_solar_angle ops1 W1.config 0 0 12 * m_pi / 180))
        1 10) := by
    norm_num [ops1]
  exact ⟨h1, h2, claim_C8 ops1 W1 0 0 12 h1 h2⟩

/-- Claim C9: when the cosine and sine functions are periodic with period
2 times the code's pi literal (true of the real cos/sin up to the
literal's approximation of pi, which is what "within floating tolerance"
allows), the sphere projection maps lon+360 and lon to the same point, and
terrain height is therefore equal at lon and lon+360 for every latitude
and detail level. -/
theorem claim_C9 (ops : FloatOps) (W : World)
    (longitude latitude detail_level : ℚ)
    (hcos : ∀ θ : ℚ, ops.cos (θ + 2 * pi_f) = ops.cos θ)
    (hsin : ∀ θ : ℚ, ops.sin (θ + 2 * pi_f) = ops.sin θ) :
    geo_to_world ops (longitude + 360) latitude =
      geo_to_world ops longitude latitude ∧
    get_terrain_height ops W (longitude + 360) latitude detail_level =
      get_terrain_height ops W longitude latitude detail_level := by
  have harg : (longitude + 360) * pi_f / 180 = longitude * pi_f / 180 + 2 * pi_f := by
    ring
  have hgeo : geo_to_world ops (longitude + 360) latitude =
      geo_to_world ops longitude latitude := by
    simp only [geo_to_world]
    rw [harg, hcos (longitude * pi_f / 180), hsin (longitude * pi_f / 180)]
  refine ⟨hgeo, ?_⟩
  simp only [get_terrain_height]
  rw [hgeo]

/-- Concrete math functions with constant (hence 2·pi_f-periodic) cosine
and sine. -/
def ops9 : FloatOps :=
  { cos := fun _ => 1
    sin := fun _ => 0
    asin := fun t => t
    exp := fun _ => 1
    pow := fun x _ => x
    sqrt := fun x => x
    log2 := fun _ => 0 }

/-- Witness for claim C9 with periodic concrete trigonometric functions. -/
theorem claim_C9_witness :
    (∀ θ : ℚ, ops9.cos (θ + 2 * pi_f) = ops9.cos θ) ∧
      geo_to_world ops9 ((0:ℚ) + 360) 0 = geo_to_world ops9 0 0 ∧
      get_terrain_height ops9 W1 ((0:ℚ) + 360) 0 1 =
        get_terrain_height ops9 W1 0 0 1 :=
  ⟨fun _ => rfl,
    (claim_C9 ops9 W1 0 0 1 (fun _ => rfl) (fun _ => rfl)).1,
    (claim_C9 ops9 W1 0 0 1 (fun _ => rfl) (fun _ => rfl)).2⟩

/-- Cache invariant for a location with stored altitude 0, after
processing a prefix of the type list: the computed flag equals `b`, and
the working altitude is the terrain-derived altitude if `b` and 0
otherwise. -/
def cache0 (ops : FloatOps) (W : World) (loc : Location) (b : Bool)
    (c : LocCache) : Prop :=
  c.terrain_computed = b ∧
    c.altitude =
      (if b = true then
        max (get_terrain_height ops W loc.longitude loc.latitude
          loc.detail_level) 0
       else 0)

theorem cache0_step (ops : FloatOps) (W : World) (loc : Location)
    (s : LocCache × BatchResult) (τ : DataType) (b : Bool)
    (h0 : loc.altitude = 0) (hc : cache0 ops W loc b s.1) :
    cache0 ops W loc (b || triggers_terrain τ) (process_type ops W loc s τ).1 := by
  obtain ⟨hcomp, halt⟩ := hc
  rw [process_type_fst]
  by_cases ht : triggers_terrain τ
  · rw [if_pos ht, ht, Bool.or_true]
    unfold ensure_terrain
    by_cases hb : s.1.terrain_computed
    · rw [if_pos hb]
      have hbtrue : b = true := hcomp ▸ hb
      subst hbtrue
      exact ⟨hb, halt⟩
    · rw [if_neg hb]
      refine ⟨rfl, ?_⟩
      simp [h0]
  · have ht' : triggers_terrain τ = false := Bool.not_eq_true _ |>.mp ht
    rw [if_neg ht, ht', Bool.or_false]
    exact ⟨hcomp, halt⟩

theorem cache0_fold (ops : FloatOps) (W : World) (loc : Location)
    (h0 : loc.altitude = 0) :
    ∀ (ts : List DataType) (b : Bool) (s : LocCache × BatchResult),
      cache0 ops W loc b s.1 →
      cache0 ops W loc (b || ts.any triggers_terrain)
        ((ts.foldl (process_type ops W loc) s).1) := by
  intro ts
  induction ts with
  | nil => intro b s hc; simpa using hc
  | cons τ ts ih =>
    intro b s hc
    rw [List.foldl_cons, List.any_cons]
    have h1 := cache0_step ops W loc s τ b h0 hc
    have h2 := ih (b || triggers_terrain τ) (process_type ops W loc s τ) h1
    rwa [Bool.or_assoc] at h2

theorem process_type_air_pressure (ops : FloatOps) (W : World) (loc : Location)
    (s : LocCache × BatchResult) (τ : DataType)
    (hτ : τ ≠ DataType.AIR_PRESSURE) :
    ((process_type ops W loc s τ).2).air_pressure = s.2.air_pressure := by
  rcases s with ⟨c, r⟩
  cases τ <;> first | rfl | exact absurd rfl hτ

theorem fold_air_pressure (ops : FloatOps) (W : World) (loc : Location) :
    ∀ (ts : List DataType) (s : LocCache × BatchResult),
      DataType.AIR_PRESSURE ∉ ts →
      ((ts.foldl (process_type ops W loc) s).2).air_pressure =
        s.2.air_pressure := by
  intro ts
  induction ts with
  | nil => intro s _; rfl
  | cons τ ts ih =>
    intro s hmem
    rw [List.foldl_cons]
    rw [ih (process_type ops W loc s τ)
      (fun h => hmem (List.mem_cons_of_mem τ h))]
    exact process_type_air_pressure ops W loc s τ
      (fun h => hmem (h ▸ List.mem_cons_self τ ts))

/-- Claim C10: in `batch_query`, for a location whose altitude field is 0,
the AIR_PRESSURE entry depends on which types precede it: it is the air
pressure at altitude 0 when no terrain-requiring type precedes it, and the
air pressure at max(terrain_height, 0) when one does — so the AIR_PRESSURE
output is not a function of the location and type alone. -/
theorem claim_C10 (ops : FloatOps) (W : World) (loc : Location)
    (pre : List DataType) (h0 : loc.altitude = 0)
    (hpre : DataType.AIR_PRESSURE ∉ pre) :
    (batch_query ops W [loc] (pre ++ [DataType.AIR_PRESSURE])).air_pressure =
      [get_air_pressure ops
        (if pre.any triggers_terrain = true then
          max (get_terrain_height ops W loc.longitude loc.latitude
            loc.detail_level) 0
         else 0)] := by
  unfold batch_query
  have hguard : (([loc].isEmpty || (pre ++ [DataType.AIR_PRESSURE]).isEmpty)) = false := by
    simp
  simp only [hguard, Bool.false_eq_true, if_false]
  rw [List.foldl_cons, List.foldl_nil, List.foldl_append, List.foldl_cons,
    List.foldl_nil]
  have hcache := cache0_fold ops W loc h0 pre false
    (init_cache loc, { BatchResult.empty with count := [loc].length })
    ⟨rfl, by simp [init_cache, h0]⟩
  rw [Bool.false_or] at hcache
  obtain ⟨_, halt⟩ := hcache
  have hstep : (process_type ops W loc
      (pre.foldl (process_type ops W loc)
        (init_cache loc, { BatchResult.empty with count := [loc].length }))
      DataType.AIR_PRESSURE).2.air_pressure =
      ((pre.foldl (process_type ops W loc)
        (init_cache loc,
          { BatchResult.empty with count := [loc].length })).2).air_pressure ++
      [get_air_pressure ops
        ((pre.foldl (process_type ops W loc)
          (init_cache loc,
            { BatchResult.empty with count := [loc].length })).1).altitude] := rfl
  rw [hstep]
  rw [fold_air_pressure ops W loc pre _ hpre]
  rw [halt]
  rfl

/-- Witness for claim C10: the same altitude-0 location queried with
AIR_PRESSURE alone, and with TERRAIN_HEIGHT before AIR_PRESSURE. -/
theorem claim_C10_witness :
    loc1.altitude = 0 ∧
    (batch_query ops1 W1 [loc1] ([] ++ [DataType.AIR_PRESSURE])).air_pressure =
      [get_air_pressure ops1
        (if ([] : List DataType).any triggers_terrain = true then
          max (get_terrain_height ops1 W1 loc1.longitude loc1.latitude
            loc1.detail_level) 0
         else 0)] ∧
    (batch_query ops1 W1 [loc1]
        ([DataType.TERRAIN_HEIGHT] ++ [DataType.AIR_PRESSURE])).air_pressure =
      [get_air_pressure ops1
        (if [DataType.TERRAIN_HEIGHT].any triggers_terrain = true then
          max (get_terrain_height ops1 W1 loc1.longitude loc1.latitude
            loc1.detail_level) 0
         else 0)] :=
  ⟨rfl,
    claim_C10 ops1 W1 loc1 [] rfl (by simp),
    claim_C10 ops1 W1 loc1 [DataType.TERRAIN_HEIGHT] rfl (by simp)⟩
